import Mathlib

set_option autoImplicit false

/-!
Verification development for the telegram-digester repository.

The Python modules under verification are shallowly embedded below:
* `src/src/digest_generator.py` — schema validation/repair, per-chat digest
  generation, combination and rendering;
* `llm.py` — the standalone `DigestStructure.validate` coercion;
* `src/src/storage.py` — history capping, cursor reset, backup cleanup;
* `src/archive/src/message_processor.py` — relevance filtering and priority
  scoring.

JSON-like Python values are modelled by the inductive `Json` type; Python
dicts are association lists preserving insertion order (Python dict keys are
unique and ordered, and updating an existing key keeps its position, which
`setA` mirrors).  Machine details that no claim depends on are flagged where
they are approximated (e.g. the rendering of `str()` on containers).
-/

namespace TelegramDigest

/-- JSON-like model of the Python values flowing through the digester:
`None`, booleans, numbers (integral; no claim involves fractional values),
strings, lists and dicts (insertion-ordered association lists). -/
inductive Json where
  | null
  | bool (b : Bool)
  | num (n : Int)
  | str (s : String)
  | arr (elems : List Json)
  | obj (fields : List (String × Json))
deriving Repr

/-- A Python dict with string keys, in insertion order. -/
abbrev Obj := List (String × Json)

/-- First-match association lookup: `d.get(k)` / `d[k]` on a Python dict. -/
def getA {α : Type} : List (String × α) → String → Option α
  | [], _ => none
  | (k, v) :: rest, key => if k = key then some v else getA rest key

/-- Key membership: Python `k in d`. -/
def hasKeyA {α : Type} (l : List (String × α)) (k : String) : Bool :=
  (getA l k).isSome

/-- Python `d[k] = v`: replace the value in place if the key exists
(keeping its position), otherwise append the new key at the end. -/
def setA {α : Type} : List (String × α) → String → α → List (String × α)
  | [], key, v => [(key, v)]
  | (k, w) :: rest, key, v =>
      if k = key then (k, v) :: rest else (k, w) :: setA rest key v

/-- The key list of a dict, in insertion order. -/
def keysA {α : Type} (l : List (String × α)) : List String :=
  l.map (fun p => p.1)

/-- Decimal digits of a natural number, least significant first; the fuel
argument (any bound on the digit count, in practice `m + 1`) keeps the
recursion structural. -/
def natDigitsRev : Nat → Nat → List Char
  | 0, m => [Nat.digitChar m]
  | fuel + 1, m =>
      if m < 10 then [Nat.digitChar m]
      else Nat.digitChar (m % 10) :: natDigitsRev fuel (m / 10)

/-- Decimal rendering of a natural number (own implementation so that
non-emptiness is immediate and the kernel can evaluate it). -/
def natStr (m : Nat) : String :=
  String.mk (natDigitsRev m m).reverse

/-- Python `str(n)` for an integer. -/
def intStr : Int → String
  | Int.ofNat m => natStr m
  | Int.negSucc m => "-" ++ natStr (m + 1)

/-- Model of Python `str(x)`.  Faithful on the cases the claims touch:
a string is returned unchanged, numbers render in decimal, `None`/booleans
render as `None`/`True`/`False`.  The rendering of containers is abbreviated
(Python would use `repr`-style listings); no claim depends on it, and inside
the digester `str()` is only ever applied to leaf values. -/
def pyStr : Json → String
  | Json.str s => s
  | Json.num n => intStr n
  | Json.bool true => "True"
  | Json.bool false => "False"
  | Json.null => "None"
  | Json.arr _ => "[...]"
  | Json.obj _ => "\x7b...\x7d"

/-- Python truthiness of a value. -/
def pyTruthy : Json → Bool
  | Json.null => false
  | Json.bool b => b
  | Json.num n => n != 0
  | Json.str s => !s.isEmpty
  | Json.arr xs => !xs.isEmpty
  | Json.obj kvs => !kvs.isEmpty

/-- Python iteration over a value: lists yield their elements, strings their
characters, dicts their keys; other values are not iterable (`TypeError`). -/
def pyIter : Json → Option (List Json)
  | Json.arr xs => some xs
  | Json.str s => some (s.toList.map (fun c => Json.str (String.singleton c)))
  | Json.obj kvs => some (kvs.map (fun kv => Json.str kv.1))
  | _ => none

/-- The strings of an iterated sequence, as Python `str.join` consumes it:
any non-string element raises `TypeError`. -/
def pyJoinStrings : List Json → Except String (List String)
  | [] => Except.ok []
  | Json.str s :: rest =>
      match pyJoinStrings rest with
      | Except.ok ss => Except.ok (s :: ss)
      | Except.error e => Except.error e
  | _ :: _ => Except.error "TypeError: sequence item: expected str instance"

/-- Python `sep.join(v)`: iterate `v` (TypeError when not iterable), require
every element to be a string (TypeError otherwise), and interleave the
separator. -/
def pyJoin (sep : String) (v : Json) : Except String String :=
  match pyIter v with
  | some items =>
      match pyJoinStrings items with
      | Except.ok ss => Except.ok (String.intercalate sep ss)
      | Except.error e => Except.error e
  | none => Except.error "TypeError: can only join an iterable"

/-- Left-to-right effectful map: the first raised error aborts the loop,
as in Python. -/
def mapExcept {α β : Type} (f : α → Except String β) : List α → Except String (List β)
  | [] => Except.ok []
  | a :: rest =>
      match f a with
      | Except.ok b =>
          match mapExcept f rest with
          | Except.ok bs => Except.ok (b :: bs)
          | Except.error e => Except.error e
      | Except.error e => Except.error e

/-- A single quote character (for rendering Python `repr` of strings). -/
def sq : String := "\x27"

/-- Python `repr` of a list of strings, as interpolated by an f-string
(e.g. `['urgent', 'topics']`). -/
def pyListRepr (xs : List String) : String :=
  "[" ++ String.intercalate ", " (xs.map (fun s => sq ++ s ++ sq)) ++ "]"

/-- Is the optional value present and a Python list? -/
def isListJ : Option Json → Bool
  | some (Json.arr _) => true
  | _ => false

/-- The six required top-level digest fields, in schema order. -/
def requiredFields : List String :=
  ["urgent", "decisions", "topics", "people_updates", "calendar", "unanswered_mentions"]

/-- Error message for a mistyped simple array field. -/
def fieldArrayError (f : String) : String :=
  "Field " ++ sq ++ f ++ sq ++ " must be an array"

/-- Per-element check of `_validate_digest_schema` for a `topics` entry at
index `i`. -/
def topicElemError (i : Nat) (t : Json) : Option String :=
  match t with
  | Json.obj kvs =>
      if hasKeyA kvs "topic" && hasKeyA kvs "summary" then none
      else some ("topics[" ++ natStr i ++ "] missing required fields " ++
        sq ++ "topic" ++ sq ++ " or " ++ sq ++ "summary" ++ sq)
  | _ => some ("topics[" ++ natStr i ++ "] must be an object")

/-- Per-element check for a `people_updates` entry. -/
def personElemError (i : Nat) (t : Json) : Option String :=
  match t with
  | Json.obj kvs =>
      if hasKeyA kvs "person" && hasKeyA kvs "update" then none
      else some ("people_updates[" ++ natStr i ++ "] missing required fields " ++
        sq ++ "person" ++ sq ++ " or " ++ sq ++ "update" ++ sq)
  | _ => some ("people_updates[" ++ natStr i ++ "] must be an object")

/-- Per-element check for a `calendar` entry. -/
def calendarElemError (i : Nat) (t : Json) : Option String :=
  match t with
  | Json.obj kvs =>
      if hasKeyA kvs "event" && hasKeyA kvs "date" then none
      else some ("calendar[" ++ natStr i ++ "] missing required fields " ++
        sq ++ "event" ++ sq ++ " or " ++ sq ++ "date" ++ sq)
  | _ => some ("calendar[" ++ natStr i ++ "] must be an object")

/-- Collect the per-element errors of one object-array field, mirroring the
enumerated loops in `_validate_digest_schema`. -/
def elemErrors (check : Nat → Json → Option String) : Nat → List Json → List String
  | _, [] => []
  | i, t :: rest =>
      match check i t with
      | some e => e :: elemErrors check (i + 1) rest
      | none => elemErrors check (i + 1) rest

/-- Errors of one object-array field: "must be an array" when the value is
not a list, otherwise the per-element errors.  The key is always present at
the call sites (the missing-fields check ran first). -/
def arrayFieldErrors (f : String) (check : Nat → Json → Option String)
    (v : Option Json) : List String :=
  match v with
  | some (Json.arr xs) => elemErrors check 0 xs
  | _ => [fieldArrayError f]

/-- Embedding of `DigestGenerator._validate_digest_schema`
(src/src/digest_generator.py, lines 215-273): result of validating a digest
dict against the six-field schema. -/
structure ValidationResult where
  valid : Bool
  errors : List String
deriving Repr, DecidableEq

/-- `DigestGenerator._validate_digest_schema`: if any of the six required
keys is missing, a single error naming the missing keys; otherwise the
concatenated type/shape errors of each field, valid iff none. -/
def validate_digest_schema (data : Obj) : ValidationResult :=
  let missing := requiredFields.filter (fun f => !hasKeyA data f)
  if missing.isEmpty then
    let errs :=
      (["urgent", "decisions", "unanswered_mentions"].filterMap
        (fun f => if isListJ (getA data f) then none else some (fieldArrayError f)))
      ++ arrayFieldErrors "topics" topicElemError (getA data "topics")
      ++ arrayFieldErrors "people_updates" personElemError (getA data "people_updates")
      ++ arrayFieldErrors "calendar" calendarElemError (getA data "calendar")
    ⟨errs.isEmpty, errs⟩
  else
    ⟨false, ["Missing required fields: " ++ pyListRepr missing]⟩

/-- Repair of one `topics` element in `_fix_digest_schema`: keep dict
elements carrying both `topic` and `summary`, stringify those two fields and
default `participants` to an empty list when not a list. -/
def fixTopicElem (t : Json) : Option Json :=
  match t with
  | Json.obj kvs =>
      if hasKeyA kvs "topic" && hasKeyA kvs "summary" then
        some (Json.obj
          [("topic", Json.str (pyStr ((getA kvs "topic").getD Json.null))),
           ("summary", Json.str (pyStr ((getA kvs "summary").getD Json.null))),
           ("participants",
             match getA kvs "participants" with
             | some (Json.arr ps) => Json.arr ps
             | _ => Json.arr [])])
      else none
  | _ => none

/-- Repair of one `people_updates` element: keep dicts with `person` and
`update`, stringified. -/
def fixPersonElem (t : Json) : Option Json :=
  match t with
  | Json.obj kvs =>
      if hasKeyA kvs "person" && hasKeyA kvs "update" then
        some (Json.obj
          [("person", Json.str (pyStr ((getA kvs "person").getD Json.null))),
           ("update", Json.str (pyStr ((getA kvs "update").getD Json.null)))])
      else none
  | _ => none

/-- Repair of one `calendar` element: keep dicts with `event` and `date`,
stringified, with `time` kept when truthy and `None` otherwise. -/
def fixCalendarElem (t : Json) : Option Json :=
  match t with
  | Json.obj kvs =>
      if hasKeyA kvs "event" && hasKeyA kvs "date" then
        some (Json.obj
          [("event", Json.str (pyStr ((getA kvs "event").getD Json.null))),
           ("date", Json.str (pyStr ((getA kvs "date").getD Json.null))),
           ("time",
             match getA kvs "time" with
             | some v => if pyTruthy v then v else Json.null
             | none => Json.null)])
      else none
  | _ => none

/-- Elements of an optional value when it is a list, else none. -/
def elemsOf : Option Json → List Json
  | some (Json.arr xs) => xs
  | _ => []

/-- Missing or mistyped simple list field is reset to an empty list;
otherwise the value (and hence the dict) is left untouched. -/
def fixArrayField (d : Obj) (f : String) : Obj :=
  if isListJ (getA d f) then d else setA d f (Json.arr [])

/-- Text extracted from a `{"messages": [...]}` response: the concatenation
of the stringified `text` fields of its dict elements, one per line. -/
def extractMessageText (msgs : List Json) : String :=
  msgs.foldl
    (fun acc m =>
      match m with
      | Json.obj kvs =>
          if hasKeyA kvs "text" then
            acc ++ pyStr ((getA kvs "text").getD Json.null) ++ "\n"
          else acc
      | _ => acc) ""

/-- Does the list start with the pattern? -/
def startsWithL : List Char → List Char → Bool
  | [], _ => true
  | _ :: _, [] => false
  | p :: ps, c :: cs => p = c && startsWithL ps cs

/-- Substring occurrence on character lists: Python `pat in s`. -/
def containsL (pat : List Char) : List Char → Bool
  | [] => pat.isEmpty
  | c :: rest => startsWithL pat (c :: rest) || containsL pat rest

/-- Python `.lower()` on a character list (ASCII model, matching the ASCII
texts the claims involve). -/
def lowerChars (cs : List Char) : List Char :=
  cs.map Char.toLower

/-- Case-insensitive substring test: Python `sub in text.lower()` where
`sub` is already lowercase. -/
def lowerContains (text : String) (sub : String) : Bool :=
  containsL sub.toList (lowerChars text.toList)

/-- The structure `_fix_digest_schema` synthesizes from a confused
`{"messages": [...]}` response: a single "General Discussion" topic holding
the (possibly truncated) extracted text, with heuristic `urgent` /
`decisions` / `calendar` seeds. -/
def messagesBranch (messageText : String) : Obj :=
  [("urgent", Json.arr
      (if lowerContains messageText "urgent" || lowerContains messageText "asap" then
        [Json.str "Content marked as urgent found in messages"]
      else [])),
   ("decisions", Json.arr
      (if lowerContains messageText "decision" || lowerContains messageText "decided" then
        [Json.str "Decision-related content found in messages"]
      else [])),
   ("topics", Json.arr
      [Json.obj
        [("topic", Json.str "General Discussion"),
         ("summary", Json.str
           (if messageText.length > 500 then messageText.take 500 ++ "..." else messageText)),
         ("participants", Json.arr [])]]),
   ("people_updates", Json.arr []),
   ("calendar", Json.arr
      (if lowerContains messageText "meeting" || lowerContains messageText "deadline" then
        [Json.obj
          [("event", Json.str "Meeting or deadline mentioned"),
           ("date", Json.str "Check messages for details"),
           ("time", Json.null)]]
      else [])),
   ("unanswered_mentions", Json.arr [])]

/-- Rebuild one object-array field from its repairable elements (a missing
or mistyped field collapses to an empty rebuild, exactly as the source's
two assignments in each `else` arm do). -/
def fixObjArrayField (d : Obj) (f : String) (fixer : Json → Option Json) : Obj :=
  setA d f (Json.arr ((elemsOf (getA d f)).filterMap fixer))

/-- Embedding of `DigestGenerator._fix_digest_schema`
(src/src/digest_generator.py, lines 275-368).  The special `messages` branch
replaces the whole structure; otherwise the three simple list fields are
reset when missing or mistyped, and each object-array field is rebuilt from
its repairable elements. -/
def fix_digest_schema (data : Obj) : Obj :=
  match getA data "messages" with
  | some (Json.arr msgs) => messagesBranch (extractMessageText msgs)
  | _ =>
    fixObjArrayField
      (fixObjArrayField
        (fixObjArrayField
          (fixArrayField (fixArrayField (fixArrayField data "urgent") "decisions")
            "unanswered_mentions")
          "topics" fixTopicElem)
        "people_updates" fixPersonElem)
      "calendar" fixCalendarElem

/-- The all-empty six-field digest structure used as a fallback. -/
def empty_structure : Obj :=
  [("urgent", Json.arr []), ("decisions", Json.arr []), ("topics", Json.arr []),
   ("people_updates", Json.arr []), ("calendar", Json.arr []),
   ("unanswered_mentions", Json.arr [])]

/-- A filtered message as seen by `DigestGenerator.generate_digest`: the
engine only ever reads the wrapped message's `chat_name` (grouping) and list
lengths, so only that field is modelled. -/
structure FMsg where
  chat_name : String
deriving Repr, DecidableEq

/-- One step of the grouping loop of `generate_digest`: append the message
to its chat's bucket, creating the bucket at the end on first sight (Python
dict insertion order). -/
def addMsg : List (String × List FMsg) → FMsg → List (String × List FMsg)
  | [], m => [(m.chat_name, [m])]
  | (k, vs) :: rest, m =>
      if k = m.chat_name then (k, vs ++ [m]) :: rest else (k, vs) :: addMsg rest m

/-- Grouping of filtered messages by chat name, in first-occurrence order. -/
def group_messages (msgs : List FMsg) : List (String × List FMsg) :=
  msgs.foldl addMsg []

/-- Per-chat digest record kept in `chat_digests`. -/
structure ChatDigest where
  structured_data : Obj
  message_count : Nat
  validation_errors : List String
deriving Repr

/-- One iteration of the per-chat loop of `generate_digest`
(src/src/digest_generator.py, lines 148-178).  The LLM layer is modelled as
an oracle from the chat name to either a digest dict or an error: a `.error`
outcome stands for anything raised inside the per-chat `try` block (the LLM
call itself, or the later steps on a non-dict response, all of which raise
in Python before producing a chat entry). -/
def process_chat (llm : String → Except String Obj) (chat_name : String)
    (msgs : List FMsg) : ChatDigest :=
  match llm chat_name with
  | Except.ok data =>
      let vr := validate_digest_schema data
      { structured_data := if vr.valid then data else fix_digest_schema data
        message_count := msgs.length
        validation_errors := if vr.valid then [] else vr.errors }
  | Except.error e =>
      { structured_data := empty_structure
        message_count := msgs.length
        validation_errors := ["Failed to process: " ++ e] }

/-- The whole per-chat loop: each grouped chat processed independently. -/
def process_chats (llm : String → Except String Obj)
    (groups : List (String × List FMsg)) : List (String × ChatDigest) :=
  groups.map (fun g => (g.1, process_chat llm g.1 g.2))

/-- `[<chat>] `-prefixed copies of a simple list field's entries, as
`_combine_chat_digests` builds them.  A non-list value never reaches this
point in the program (every structure was validated or repaired first), so
that case contributes nothing. -/
def prefixEntries (chat_name : String) (v : Option Json) : List Json :=
  match v with
  | some (Json.arr xs) =>
      xs.map (fun item => Json.str ("[" ++ chat_name ++ "] " ++ pyStr item))
  | _ => []

/-- Copies of an object-array field's elements annotated with a
`source_chat` key, as `_combine_chat_digests` builds them.  Non-dict
elements cannot occur for validated structures (Python would raise on
`.copy()`), so they are passed through. -/
def annotateEntries (chat_name : String) (v : Option Json) : List Json :=
  match v with
  | some (Json.arr xs) =>
      xs.map (fun e =>
        match e with
        | Json.obj kvs => Json.obj (setA kvs "source_chat" (Json.str chat_name))
        | other => other)
  | _ => []

/-- Embedding of `DigestGenerator._combine_chat_digests`
(src/src/digest_generator.py, lines 370-420): per-field concatenation over
the chats in iteration order, prefixing simple entries with the chat name
and annotating object entries with `source_chat`. -/
def combine_chat_digests (chat_digests : List (String × ChatDigest)) : Obj :=
  [("urgent", Json.arr (chat_digests.flatMap
      (fun d => prefixEntries d.1 (getA d.2.structured_data "urgent")))),
   ("decisions", Json.arr (chat_digests.flatMap
      (fun d => prefixEntries d.1 (getA d.2.structured_data "decisions")))),
   ("topics", Json.arr (chat_digests.flatMap
      (fun d => annotateEntries d.1 (getA d.2.structured_data "topics")))),
   ("people_updates", Json.arr (chat_digests.flatMap
      (fun d => annotateEntries d.1 (getA d.2.structured_data "people_updates")))),
   ("calendar", Json.arr (chat_digests.flatMap
      (fun d => annotateEntries d.1 (getA d.2.structured_data "calendar")))),
   ("unanswered_mentions", Json.arr (chat_digests.flatMap
      (fun d => prefixEntries d.1 (getA d.2.structured_data "unanswered_mentions"))))]

/-- Field access `v[k]` on a value expected to be a dict (unreachable
otherwise at the rendering call sites, which only see validated data). -/
def jGet (v : Json) (k : String) : Json :=
  match v with
  | Json.obj kvs => (getA kvs k).getD Json.null
  | _ => Json.null

/-- Truthy test of `d.get(k)` on a structured field. -/
def truthyField (o : Obj) (k : String) : Bool :=
  match getA o k with
  | some v => pyTruthy v
  | none => false

/-- One bulleted section of the multi-chat renderer. -/
def simpleSection (title : String) (o : Obj) (k : String) : List String :=
  if truthyField o k then
    [title] ++ (elemsOf (getA o k)).map (fun item => "• " ++ pyStr item) ++ [""]
  else []

/-- Calendar section lines of the multi-chat renderer. -/
def calendarSection (o : Obj) : List String :=
  if truthyField o "calendar" then
    ["📅 **CALENDAR & DEADLINES**"] ++
    (elemsOf (getA o "calendar")).map (fun ev =>
      let timeStr := if pyTruthy (jGet ev "time") then " at " ++ pyStr (jGet ev "time") else ""
      "• " ++ pyStr (jGet ev "event") ++ " - " ++ pyStr (jGet ev "date") ++ timeStr) ++ [""]
  else []

/-- The two lines of one topic in the multi-chat renderer.  When the
topic's `participants` value is truthy, the source renders
`', '.join(topic['participants'])`, which raises `TypeError` on any
non-string element (or a truthy non-iterable value) — schema validation
and repair never inspect `participants` elements, so this error is
reachable and propagates to `generate_digest`'s outer handler. -/
def topicLines (t : Json) : Except String (List String) :=
  match
    (if pyTruthy (jGet t "participants") then
      match pyJoin ", " (jGet t "participants") with
      | Except.ok s => Except.ok (" (👥 " ++ s ++ ")")
      | Except.error e => Except.error e
    else Except.ok "") with
  | Except.ok participants =>
      Except.ok ["• **" ++ pyStr (jGet t "topic") ++ "**" ++ participants,
        "  " ++ pyStr (jGet t "summary")]
  | Except.error e => Except.error e

/-- Topics section lines of the multi-chat renderer (the one renderer
section that can raise). -/
def topicsSection (o : Obj) : Except String (List String) :=
  if truthyField o "topics" then
    match mapExcept topicLines (elemsOf (getA o "topics")) with
    | Except.ok ls => Except.ok (["💡 **KEY TOPICS DISCUSSED**"] ++ ls.flatten ++ [""])
    | Except.error e => Except.error e
  else Except.ok []

/-- People-updates section lines of the multi-chat renderer. -/
def peopleSection (o : Obj) : List String :=
  if truthyField o "people_updates" then
    ["👥 **PEOPLE UPDATES**"] ++
    (elemsOf (getA o "people_updates")).map (fun u =>
      "• **" ++ pyStr (jGet u "person") ++ "**: " ++ pyStr (jGet u "update")) ++ [""]
  else []

/-- The per-chat block of `_format_multi_chat_digest_text`; a `TypeError`
raised while rendering the topics section aborts the whole rendering. -/
def chatBlock (chat_name : String) (cd : ChatDigest) : Except String (List String) :=
  let o := cd.structured_data
  let hasContent :=
    truthyField o "urgent" || truthyField o "decisions" || truthyField o "topics" ||
    truthyField o "people_updates" || truthyField o "calendar" ||
    truthyField o "unanswered_mentions"
  if !hasContent then
    Except.ok
      (["## 📱 **" ++ chat_name ++ "** (" ++ natStr cd.message_count ++ " messages)"] ++
        ["💤 *No significant updates in this chat*\n"])
  else
    match topicsSection o with
    | Except.ok topicLs =>
        Except.ok
          (["## 📱 **" ++ chat_name ++ "** (" ++ natStr cd.message_count ++ " messages)"] ++
            simpleSection "🚨 **URGENT ITEMS**" o "urgent" ++
            simpleSection "💬 **REQUIRES YOUR RESPONSE**" o "unanswered_mentions" ++
            calendarSection o ++
            simpleSection "✅ **DECISIONS MADE**" o "decisions" ++
            topicLs ++
            peopleSection o ++
            ["---\n"])
    | Except.error e => Except.error e

/-- Embedding of `DigestGenerator._format_multi_chat_digest_text`
(src/src/digest_generator.py, lines 422-514); the generation timestamp is a
parameter (`datetime.now` in the source).  The per-chat loop stops at the
first chat whose topics rendering raises, and the error propagates. -/
def format_multi_chat_digest_text (chat_digests : List (String × ChatDigest))
    (now : String) : Except String String :=
  let header := "📊 **Multi-Chat Digest** - " ++ now ++ "\n" ++
    String.mk (List.replicate 50 '=') ++ "\n\n"
  let total := (chat_digests.map (fun d => d.2.message_count)).sum
  let allErrors := chat_digests.flatMap (fun d => d.2.validation_errors)
  let footer := "\n📊 **Summary**: " ++ natStr total ++ " messages from " ++
    natStr chat_digests.length ++ " chats" ++
    (if allErrors.isEmpty then "" else
      " ⚠️ " ++ natStr allErrors.length ++ " validation warnings")
  match mapExcept (fun d => chatBlock d.1 d.2) chat_digests with
  | Except.ok blocks => Except.ok (String.intercalate "\n" ([header] ++ blocks.flatten ++ [footer]))
  | Except.error e => Except.error e

/-- The metadata dict built on the successful multi-chat path. -/
def digestMetadata (provider_info : Json) (now : String) (messageCount : Nat)
    (chat_digests : List (String × ChatDigest)) : Obj :=
  [("message_count", Json.num messageCount),
   ("generated_at", Json.str now),
   ("llm_provider", provider_info),
   ("chat_count", Json.num chat_digests.length),
   ("high_priority_count", Json.num 0),
   ("validation_errors", Json.arr
      ((chat_digests.flatMap (fun d => d.2.validation_errors)).map Json.str)),
   ("chat_details", Json.obj (chat_digests.map (fun d =>
      (d.1, Json.obj
        [("message_count", Json.num d.2.message_count),
         ("validation_errors", Json.arr (d.2.validation_errors.map Json.str))]))))]

/-- Result record of `generate_digest`. -/
structure DigestResult where
  success : Bool
  digest_text : String
  structured_data : Obj
  error_message : Option String
  metadata : Obj
deriving Repr

/-- Embedding of `DigestGenerator.generate_digest`
(src/src/digest_generator.py, lines 97-213).  Parameters standing for the
ambient effects: `llm` is the per-chat LLM oracle (see `process_chat`),
`provider_info` the value of `llm_manager.get_provider_info()`, `now` the
ISO timestamp `datetime.now().isoformat()`.  The one step of the embedded
code that can raise outside the per-chat handler is the digest-text
rendering (a `TypeError` from `', '.join(topic['participants'])` on
non-string participants in an otherwise schema-valid structure); it hits
the outer `except`, which returns the failure result of lines 205-213.
`_combine_chat_digests` runs before the renderer in the source but cannot
raise on per-chat results, so discarding its value on the error path is
observationally identical. -/
def generate_digest (llm : String → Except String Obj) (provider_info : Json)
    (now : String) (filtered_messages : List FMsg) : DigestResult :=
  if filtered_messages.isEmpty then
    { success := true
      digest_text := "No new messages to digest."
      structured_data := empty_structure
      error_message := none
      metadata := [("message_count", Json.num 0), ("generated_at", Json.str now)] }
  else
    let groups := group_messages filtered_messages
    let chat_digests := process_chats llm groups
    match format_multi_chat_digest_text chat_digests now with
    | Except.ok text =>
        { success := true
          digest_text := text
          structured_data := combine_chat_digests chat_digests
          error_message := none
          metadata := digestMetadata provider_info now filtered_messages.length chat_digests }
    | Except.error e =>
        { success := false
          digest_text := "Failed to generate digest due to error."
          structured_data := []
          error_message := some e
          metadata := [("message_count", Json.num filtered_messages.length),
                       ("error_at", Json.str now)] }

/-! Embedding of `DigestStructure.validate` from `llm.py` (lines 15-84):
lenient hand-coercion of an arbitrary parsed JSON value into the six-field
contract. -/

namespace DigestStructure

/-- Coercion of a simple list field: keep a list's elements stringified,
anything else (missing or mistyped, warned about) collapses to `[]`. -/
def strListField (o : Obj) (f : String) : Json :=
  match getA o f with
  | some (Json.arr xs) => Json.arr (xs.map (fun x => Json.str (pyStr x)))
  | _ => Json.arr []

/-- The coerced form of one `topics` dict element, given the already
materialised iteration of its `participants` value. -/
def topicObj (kvs : Obj) (ps : List Json) : Json :=
  Json.obj
    [("topic", Json.str (pyStr ((getA kvs "topic").getD (Json.str "")))),
     ("summary", Json.str (pyStr ((getA kvs "summary").getD (Json.str "")))),
     ("participants", Json.arr (ps.map (fun p => Json.str (pyStr p))))]

/-- Coercion of the `topics` elements: non-dict elements are dropped; a
dict element whose `participants` value is not iterable raises `TypeError`
(modelled as the error case, which propagates). -/
def coerceTopics : List Json → Except String (List Json)
  | [] => Except.ok []
  | t :: rest =>
      match t with
      | Json.obj kvs =>
          match pyIter ((getA kvs "participants").getD (Json.arr [])) with
          | some ps =>
              match coerceTopics rest with
              | Except.ok rs => Except.ok (topicObj kvs ps :: rs)
              | Except.error e => Except.error e
          | none => Except.error "TypeError: participants is not iterable"
      | _ => coerceTopics rest

/-- Coercion of the `people_updates` elements: dict elements keep
stringified `person`/`update` (defaulting to empty), others are dropped. -/
def coercePeople : List Json → List Json
  | [] => []
  | u :: rest =>
      match u with
      | Json.obj kvs =>
          Json.obj
            [("person", Json.str (pyStr ((getA kvs "person").getD (Json.str "")))),
             ("update", Json.str (pyStr ((getA kvs "update").getD (Json.str ""))))]
          :: coercePeople rest
      | _ => coercePeople rest

/-- Coercion of the `calendar` elements: dict elements keep stringified
`event`/`date`, with `time` stringified when truthy and `None` otherwise. -/
def coerceCalendar : List Json → List Json
  | [] => []
  | u :: rest =>
      match u with
      | Json.obj kvs =>
          Json.obj
            [("event", Json.str (pyStr ((getA kvs "event").getD (Json.str "")))),
             ("date", Json.str (pyStr ((getA kvs "date").getD (Json.str "")))),
             ("time",
               match getA kvs "time" with
               | some v => if pyTruthy v then Json.str (pyStr v) else Json.null
               | none => Json.null)]
          :: coerceCalendar rest
      | _ => coerceCalendar rest

/-- The `people_updates` field after coercion: a list is coerced
element-wise, anything else collapses to `[]`. -/
def peopleField (o : Obj) : Json :=
  match getA o "people_updates" with
  | some (Json.arr xs) => Json.arr (coercePeople xs)
  | _ => Json.arr []

/-- The `calendar` field after coercion: a list is coerced element-wise,
anything else collapses to `[]`. -/
def calendarField (o : Obj) : Json :=
  match getA o "calendar" with
  | some (Json.arr xs) => Json.arr (coerceCalendar xs)
  | _ => Json.arr []

/-- The `topics` field after coercion: a list is coerced element-wise (and
may raise through `coerceTopics`), anything else collapses to `[]`. -/
def topicsField (o : Obj) : Except String Json :=
  match getA o "topics" with
  | some (Json.arr xs) =>
      match coerceTopics xs with
      | Except.ok ts => Except.ok (Json.arr ts)
      | Except.error e => Except.error e
  | _ => Except.ok (Json.arr [])

/-- Embedding of `DigestStructure.validate` (llm.py, lines 15-84).  A
non-dict input yields the fully empty default structure; a dict is coerced
field by field into exactly the six keys in contract order.  The error case
models the one way the Python can raise (`TypeError` on a non-iterable
`participants` value). -/
def validate (j : Json) : Except String Obj :=
  match j with
  | Json.obj o =>
      match topicsField o with
      | Except.ok tps =>
          Except.ok
            [("urgent", strListField o "urgent"),
             ("decisions", strListField o "decisions"),
             ("topics", tps),
             ("people_updates", peopleField o),
             ("calendar", calendarField o),
             ("unanswered_mentions", strListField o "unanswered_mentions")]
      | Except.error e => Except.error e
  | _ => Except.ok empty_structure

end DigestStructure

/-! Embedding of the storage manager (src/src/storage.py). -/

/-- Record of one digest generation run (`DigestRun` dataclass).  The float
`processing_time_seconds` is modelled as a rational; the history logic never
inspects any field. -/
structure DigestRun where
  timestamp : String
  message_count : Int
  chat_count : Int
  success : Bool
  error_message : Option String := none
  llm_provider : Option (List (String × String)) := none
  processing_time_seconds : Option Rat := none
deriving Repr, DecidableEq

/-- Embedding of `StorageManager.save_digest_run` (src/src/storage.py,
lines 105-126) acting on the loaded history list: append the new run and
keep only the most recent 100 (`history[-100:]`); the result is what is
rewritten to `digest_history.json`. -/
def save_digest_run (history : List DigestRun) (run : DigestRun) : List DigestRun :=
  let h := history ++ [run]
  h.drop (h.length - 100)

/-- Embedding of `StorageManager.reset_cursors` (src/src/storage.py, lines
267-287) acting on the loaded cursor map: with a truthy identifier list,
set each identifier already present to 0 (in place) and ignore the rest;
otherwise (no argument, or an empty — falsy — list) replace the map with an
empty one.  The result is what `save_cursors` persists. -/
def reset_cursors (chat_identifiers : Option (List String))
    (cursors : List (String × Int)) : List (String × Int) :=
  if (match chat_identifiers with | some l => !l.isEmpty | none => false) then
    (chat_identifiers.getD []).foldl
      (fun cs chat_id => if hasKeyA cs chat_id then setA cs chat_id 0 else cs)
      cursors
  else []

/-- A direct child of the `backups/` directory (as enumerated by
`glob("*")`), with its name and whether it is a regular file. -/
structure DirEntry where
  name : String
  is_file : Bool
deriving Repr, DecidableEq

/-- A parsed wall-clock instant (model of `datetime`). -/
structure PDateTime where
  year : Nat
  month : Nat
  day : Nat
  hour : Nat
  minute : Nat
  second : Nat
deriving Repr, DecidableEq

/-- Order-embedding key for datetime comparison: lexicographic on the six
fields, which the mixed-radix encoding realises for in-range fields. -/
def dtKey (d : PDateTime) : Nat :=
  ((((d.year * 13 + d.month) * 32 + d.day) * 24 + d.hour) * 60 + d.minute) * 60 + d.second

/-- Numeric value of a decimal digit character. -/
def digitVal (c : Char) : Nat := c.toNat - 48

/-- Alternatives of CPython's `%Y` directive (exactly four digits),
as (value, rest-of-input) pairs in regex order. -/
def altsY : List Char → List (Nat × List Char)
  | a :: b :: c :: d :: rest =>
      if a.isDigit && b.isDigit && c.isDigit && d.isDigit then
        [(((digitVal a * 10 + digitVal b) * 10 + digitVal c) * 10 + digitVal d, rest)]
      else []
  | _ => []

/-- Alternatives of `%m`: `1[0-2]|0[1-9]|[1-9]`. -/
def altsMonth (cs : List Char) : List (Nat × List Char) :=
  (match cs with
   | '1' :: c :: rest => if '0' ≤ c && c ≤ '2' then [(10 + digitVal c, rest)] else []
   | _ => []) ++
  (match cs with
   | '0' :: c :: rest => if '1' ≤ c && c ≤ '9' then [(digitVal c, rest)] else []
   | _ => []) ++
  (match cs with
   | c :: rest => if '1' ≤ c && c ≤ '9' then [(digitVal c, rest)] else []
   | _ => [])

/-- Alternatives of `%d`: `3[01]|[12]\d|0[1-9]|[1-9]`. -/
def altsDay (cs : List Char) : List (Nat × List Char) :=
  (match cs with
   | '3' :: c :: rest => if c = '0' || c = '1' then [(30 + digitVal c, rest)] else []
   | _ => []) ++
  (match cs with
   | a :: b :: rest =>
      if (a = '1' || a = '2') && b.isDigit then [(digitVal a * 10 + digitVal b, rest)] else []
   | _ => []) ++
  (match cs with
   | '0' :: c :: rest => if '1' ≤ c && c ≤ '9' then [(digitVal c, rest)] else []
   | _ => []) ++
  (match cs with
   | c :: rest => if '1' ≤ c && c ≤ '9' then [(digitVal c, rest)] else []
   | _ => [])

/-- Alternatives of `%H`: `2[0-3]|[0-1]\d|\d`. -/
def altsHour (cs : List Char) : List (Nat × List Char) :=
  (match cs with
   | '2' :: c :: rest => if '0' ≤ c && c ≤ '3' then [(20 + digitVal c, rest)] else []
   | _ => []) ++
  (match cs with
   | a :: b :: rest =>
      if (a = '0' || a = '1') && b.isDigit then [(digitVal a * 10 + digitVal b, rest)] else []
   | _ => []) ++
  (match cs with
   | c :: rest => if c.isDigit then [(digitVal c, rest)] else []
   | _ => [])

/-- Alternatives of `%M`: `[0-5]\d|\d`. -/
def altsMinute (cs : List Char) : List (Nat × List Char) :=
  (match cs with
   | a :: b :: rest =>
      if ('0' ≤ a && a ≤ '5') && b.isDigit then [(digitVal a * 10 + digitVal b, rest)] else []
   | _ => []) ++
  (match cs with
   | c :: rest => if c.isDigit then [(digitVal c, rest)] else []
   | _ => [])

/-- Alternatives of `%S`: `6[0-1]|[0-5]\d|\d`. -/
def altsSecond (cs : List Char) : List (Nat × List Char) :=
  (match cs with
   | '6' :: c :: rest => if c = '0' || c = '1' then [(60 + digitVal c, rest)] else []
   | _ => []) ++
  (match cs with
   | a :: b :: rest =>
      if ('0' ≤ a && a ≤ '5') && b.isDigit then [(digitVal a * 10 + digitVal b, rest)] else []
   | _ => []) ++
  (match cs with
   | c :: rest => if c.isDigit then [(digitVal c, rest)] else []
   | _ => [])

/-- First success over a list of alternatives (regex backtracking order). -/
def firstSome {α β : Type} (f : α → Option β) : List α → Option β
  | [] => none
  | a :: rest =>
      match f a with
      | some b => some b
      | none => firstSome f rest

/-- The regex match underlying `datetime.strptime(s, "%Y%m%d_%H%M%S")`:
the directive alternatives are tried in backtracking order and the whole
input must be consumed. -/
def strptimeMatch (cs : List Char) : Option PDateTime :=
  firstSome (fun (y : Nat × List Char) =>
    firstSome (fun (mo : Nat × List Char) =>
      firstSome (fun (d : Nat × List Char) =>
        match d.2 with
        | '_' :: r4 =>
            firstSome (fun (h : Nat × List Char) =>
              firstSome (fun (mi : Nat × List Char) =>
                firstSome (fun (s : Nat × List Char) =>
                  if s.2.isEmpty then
                    some ⟨y.1, mo.1, d.1, h.1, mi.1, s.1⟩
                  else none)
                  (altsSecond mi.2))
                (altsMinute h.2))
              (altsHour r4)
        | _ => none)
        (altsDay mo.2))
      (altsMonth y.2))
    (altsY cs)

/-- Gregorian leap-year rule (as `datetime` uses). -/
def isLeapYear (y : Nat) : Bool :=
  y % 4 = 0 && (y % 100 ≠ 0 || y % 400 = 0)

/-- Days in a month (as `datetime` validates). -/
def daysInMonth (y m : Nat) : Nat :=
  if m = 2 then (if isLeapYear y then 29 else 28)
  else if m = 4 || m = 6 || m = 9 || m = 11 then 30
  else 31

/-- `datetime.strptime(s, "%Y%m%d_%H%M%S")`: the regex match, followed by
the `datetime` constructor's validation (year at least 1, a real calendar
day, seconds below 60 — the regex alone would admit leap seconds), failing
with `ValueError` (modelled as `none`) otherwise. -/
def strptime_ts (cs : List Char) : Option PDateTime :=
  match strptimeMatch cs with
  | some d =>
      if 1 ≤ d.year && d.day ≤ daysInMonth d.year d.month && d.second ≤ 59 then
        some d
      else none
  | none => none

/-- Break a character list at the first occurrence of the separator,
returning the part before it and the part after it (Python `in` plus the
first two segments of `str.split`). -/
def breakOnAux (sep : List Char) : List Char → Option (List Char × List Char)
  | [] => none
  | c :: rest =>
      if startsWithL sep (c :: rest) then some ([], (c :: rest).drop sep.length)
      else
        match breakOnAux sep rest with
        | some (pre, post) => some (c :: pre, post)
        | none => none

/-- Timestamp extraction of `cleanup_old_backups`: when the name contains
`_backup_`, the segment after its first occurrence
(`name.split("_backup_")[1]`, i.e. up to the next occurrence if any) is
truncated at the first dot (`.split(".")[0]`) and parsed with `strptime`;
any failure means the file is skipped. -/
def parse_backup_timestamp (name : String) : Option PDateTime :=
  match breakOnAux "_backup_".toList name.toList with
  | none => none
  | some (_, post) =>
      let second :=
        match breakOnAux "_backup_".toList post with
        | some (pre2, _) => pre2
        | none => post
      strptime_ts (second.takeWhile (fun c => c ≠ '.'))

/-- Deletion predicate of `cleanup_old_backups` (src/src/storage.py, lines
175-203): only regular files whose name carries a parseable `_backup_`
timestamp strictly older than the cutoff are unlinked. -/
def shouldDeleteBackup (cutoff : PDateTime) (e : DirEntry) : Bool :=
  e.is_file &&
  (match parse_backup_timestamp e.name with
   | some d => dtKey d < dtKey cutoff
   | none => false)

/-- Embedding of `StorageManager.cleanup_old_backups` on the listing of the
`backups/` directory: the entries surviving the cleanup pass.  The cutoff
(`now - backup_days`) is a parameter. -/
def cleanup_old_backups (cutoff : PDateTime) (entries : List DirEntry) : List DirEntry :=
  entries.filter (fun e => !shouldDeleteBackup cutoff e)

/-- Embedding of `StorageManager.backup_all_data` (src/src/storage.py,
lines 289-309) as it affects the `backups/` listing: a new
`full_backup_<timestamp>` subdirectory appears (the `*.json` copies live
inside it, not directly under `backups/`). -/
def backup_all_data (ts : String) (entries : List DirEntry) : List DirEntry :=
  entries ++ [⟨"full_backup_" ++ ts, false⟩]

/-! Embedding of the archived message processor
(src/archive/src/message_processor.py). -/

namespace Archive

/-- Normalized message record (`TelegramMessage`), restricted to the fields
the filter reads.  The timestamp is in whole seconds (UTC); Python's
microsecond component only shifts band boundaries no claim sits on. -/
structure TelegramMessage where
  chat_name : String
  timestamp : Int
  text : String
  is_reply : Bool
  has_media : Bool
deriving Repr, DecidableEq

/-- Message wrapper with filtering metadata (`FilteredMessage`); the score
is integral (every contribution in the source is a whole float). -/
structure FilteredMessage where
  message : TelegramMessage
  priority_score : Nat
deriving Repr, DecidableEq

/-- The digest-section configuration the processor reads, with the source
defaults. -/
structure DigestConfig where
  min_message_length : Nat := 10
  exclude_emoji_only : Bool := true
  include_mentions : Bool := true
  include_keywords : Bool := true
  include_money_amounts : Bool := true
  include_dates : Bool := true
  max_messages_per_chat : Nat := 100
deriving Repr

/-- The configuration defaults of the archived processor. -/
def defaultDigestConfig : DigestConfig := {}

/-- Model of the regex class `\w` (ASCII fragment; the texts in the claims
are ASCII, and emoji are not word characters either way). -/
def isWordChar (c : Char) : Bool := c.isAlphanum || c = '_'

/-- Model of the regex class `\s` (ASCII fragment). -/
def isSpaceChar (c : Char) : Bool := c.isWhitespace

/-- Python `.strip()` on a character list. -/
def stripChars (cs : List Char) : List Char :=
  ((cs.dropWhile isSpaceChar).reverse.dropWhile isSpaceChar).reverse

/-- `MessageProcessor._is_emoji_only`: after removing all non-word,
non-space characters and stripping, is the remainder shorter than 30% of
the original?  (Python compares against the float `len(text) * 0.3`; the
exact rational comparison used here agrees away from boundary artifacts,
and no claim sits on the boundary.) -/
def is_emoji_only (text : String) : Bool :=
  let clean := stripChars (text.toList.filter (fun c => isWordChar c || isSpaceChar c))
  10 * clean.length < 3 * text.length

/-- Case-insensitive prefix match of a lowercase pattern. -/
def ciMatch : List Char → List Char → Bool
  | [], _ => true
  | _ :: _, [] => false
  | p :: ps, c :: rest => c.toLower = p && ciMatch ps rest

/-- Occurrence of `\$\d+` anywhere in the text. -/
def hasDollarAmount : List Char → Bool
  | '$' :: c :: rest => c.isDigit || hasDollarAmount (c :: rest)
  | _ :: rest => hasDollarAmount rest
  | [] => false

/-- Match of `\d+\s*<unit>` (case-insensitive) starting at this position:
at least one digit, then the greedy run of digits and whitespace, then the
unit.  Greedy matching is exact here because the unit starts with a letter,
so the regex backtracking can never succeed where the greedy scan fails. -/
def numUnitAt (unit : List Char) : List Char → Bool
  | c :: rest =>
      c.isDigit && ciMatch unit ((rest.dropWhile Char.isDigit).dropWhile isSpaceChar)
  | [] => false

/-- `re.search`: does the position-anchored predicate hold anywhere? -/
def scanAny (p : List Char → Bool) : List Char → Bool
  | [] => p []
  | c :: rest => p (c :: rest) || scanAny p rest

/-- `MessageProcessor._has_money_amounts`: any of the four money patterns
(`\$\d+`, `\d+\s*USD`, `\d+\s*ETH`, `\d+\s*PNK`, case-insensitive). -/
def has_money_amounts (text : String) : Bool :=
  let cs := text.toList
  hasDollarAmount cs ||
  scanAny (numUnitAt ['u', 's', 'd']) cs ||
  scanAny (numUnitAt ['e', 't', 'h']) cs ||
  scanAny (numUnitAt ['p', 'n', 'k']) cs

/-- Position-anchored match of `\d{4}-\d{2}-\d{2}`. -/
def ymdAt : List Char → Bool
  | a :: b :: c :: d :: '-' :: e :: f :: '-' :: g :: h :: _ =>
      a.isDigit && b.isDigit && c.isDigit && d.isDigit &&
      e.isDigit && f.isDigit && g.isDigit && h.isDigit
  | _ => false

/-- Position-anchored match of `\d{2}/\d{2}/\d{4}`. -/
def mdyAt : List Char → Bool
  | a :: b :: '/' :: c :: d :: '/' :: e :: f :: g :: h :: _ =>
      a.isDigit && b.isDigit && c.isDigit && d.isDigit &&
      e.isDigit && f.isDigit && g.isDigit && h.isDigit
  | _ => false

/-- `MessageProcessor._has_dates`: any of the date patterns (numeric dates,
the today/tomorrow/yesterday words, next/last week), case-insensitive. -/
def has_dates (text : String) : Bool :=
  scanAny ymdAt text.toList || scanAny mdyAt text.toList ||
  lowerContains text "today" || lowerContains text "tomorrow" ||
  lowerContains text "yesterday" ||
  lowerContains text "next week" || lowerContains text "last week"

/-- `MessageProcessor._has_keywords`: the fixed keyword list, each matched
case-insensitively as a substring. -/
def has_keywords (text : String) : Bool :=
  ["urgent", "important", "update", "announcement", "deadline", "meeting",
   "call", "event"].any (fun k => lowerContains text k)

/-- `MessageProcessor._is_message_relevant` (lines 170-205): the ordered
relevance gate. -/
def is_message_relevant (cfg : DigestConfig) (m : TelegramMessage) : Bool :=
  if (stripChars m.text.toList).length < cfg.min_message_length then false
  else if cfg.exclude_emoji_only && is_emoji_only m.text then false
  else if cfg.include_mentions && m.text.toList.contains '@' then true
  else if cfg.include_keywords && has_keywords m.text then true
  else if cfg.include_money_amounts && has_money_amounts m.text then true
  else if cfg.include_dates && has_dates m.text then true
  else if m.has_media then true
  else if m.is_reply then true
  else decide ((stripChars m.text.toList).length ≥ 20)

/-- The recency band of `_calculate_priority_score`, on the age in seconds
(`hours_ago` bands 1/6/24/48 rendered in seconds). -/
def recencyScore (secondsAgo : Int) : Nat :=
  if secondsAgo < 3600 then 10
  else if secondsAgo < 21600 then 8
  else if secondsAgo < 86400 then 6
  else if secondsAgo < 172800 then 4
  else 2

/-- The mention bonus condition: a truthy username whose lowercase form
occurs in the lowercase text. -/
def mentionsUsername (username : Option String) (text : String) : Bool :=
  match username with
  | some u => !u.isEmpty && containsL (lowerChars u.toList) (lowerChars text.toList)
  | none => false

/-- Embedding of `MessageProcessor._calculate_priority_score`
(src/archive/src/message_processor.py, lines 132-168); `now` is the current
UTC time in seconds. -/
def calculate_priority_score (now : Int) (username : Option String)
    (m : TelegramMessage) : Nat :=
  recencyScore (now - m.timestamp)
  + (if mentionsUsername username m.text then 5 else 0)
  + (if m.is_reply then 2 else 0)
  + (if m.has_media then 1 else 0)
  + (if m.text.length > 50 then 1 else 0)

/-- Stable insertion for the descending sort: a new (earlier-in-input)
element goes before the first position whose score it meets or exceeds,
which reproduces Python's stable `sort(reverse=True)` ordering. -/
def insertByScore (x : FilteredMessage) : List FilteredMessage → List FilteredMessage
  | [] => [x]
  | y :: ys =>
      if x.priority_score ≥ y.priority_score then x :: y :: ys
      else y :: insertByScore x ys

/-- Stable descending sort by priority score (the unique stable result,
hence equal to Python's). -/
def sortByScoreDesc : List FilteredMessage → List FilteredMessage
  | [] => []
  | x :: xs => insertByScore x (sortByScoreDesc xs)

/-- Python `counts[k] = v` on the per-chat counter dict. -/
def bumpCount (counts : List (String × Nat)) (k : String) (v : Nat) :
    List (String × Nat) :=
  if hasKeyA counts k then setA counts k v else counts ++ [(k, v)]

/-- The walking loop of `_apply_chat_limits`: keep a message while its
chat's running count is below the cap. -/
def applyChatLimitsAux (maxPerChat : Nat) (counts : List (String × Nat)) :
    List FilteredMessage → List FilteredMessage
  | [] => []
  | m :: rest =>
      let cnt := (getA counts m.message.chat_name).getD 0
      if cnt < maxPerChat then
        m :: applyChatLimitsAux maxPerChat (bumpCount counts m.message.chat_name (cnt + 1)) rest
      else
        applyChatLimitsAux maxPerChat (bumpCount counts m.message.chat_name cnt) rest

/-- `MessageProcessor._apply_chat_limits` (lines 241-255). -/
def apply_chat_limits (maxPerChat : Nat) (msgs : List FilteredMessage) :
    List FilteredMessage :=
  applyChatLimitsAux maxPerChat [] msgs

/-- Embedding of `MessageProcessor.filter_messages`
(src/archive/src/message_processor.py, lines 43-75): score every message,
keep the relevant ones in encounter order, sort stably by descending
priority, then apply the per-chat cap. -/
def filter_messages (cfg : DigestConfig) (now : Int) (username : Option String)
    (messages : List TelegramMessage) : List FilteredMessage :=
  if messages.isEmpty then []
  else
    let kept := messages.filterMap (fun m =>
      if is_message_relevant cfg m then
        some ⟨m, calculate_priority_score now username m⟩
      else none)
    apply_chat_limits cfg.max_messages_per_chat (sortByScoreDesc kept)

end Archive

/-! Concrete inputs used when settling the claims. -/

/-- Specification formula: the most recent `n` entries of a list, oldest
dropped first. -/
def mostRecent {α : Type} (n : Nat) (l : List α) : List α :=
  (l.reverse.take n).reverse

/-- The monotone digest-run sequence of the history-capping scenario. -/
def seqRun (i : Nat) : DigestRun :=
  { timestamp := natStr i, message_count := Int.ofNat i, chat_count := 1, success := true }

/-- A schema-valid digest dict carrying one extra top-level key. -/
def extraKeyObj : Obj :=
  [("urgent", Json.arr []), ("decisions", Json.arr []), ("topics", Json.arr []),
   ("people_updates", Json.arr []), ("calendar", Json.arr []),
   ("unanswered_mentions", Json.arr []), ("extra", Json.num 1)]

/-- A schema-valid digest dict whose one topic carries a non-string
participants element: validation and repair never inspect participants
elements, so this value reaches the renderer unchanged, where
`', '.join(topic['participants'])` raises `TypeError`. -/
def c4badObj : Obj :=
  [("urgent", Json.arr []), ("decisions", Json.arr []),
   ("topics", Json.arr [Json.obj
     [("topic", Json.str "t"), ("summary", Json.str "s"),
      ("participants", Json.arr [Json.num 1])]]),
   ("people_updates", Json.arr []), ("calendar", Json.arr []),
   ("unanswered_mentions", Json.arr [])]

/-- Reference instant for the priority-scoring scenario (seconds). -/
def c3now : Int := 1000000

/-- A message containing only a meeting-keyword phrase, 25 hours old. -/
def c3keywordMsg : Archive.TelegramMessage :=
  ⟨"work", c3now - 90000, "see you at the meeting", false, false⟩

/-- A message with a money amount and a date but no mention, 25 hours old. -/
def c3moneyMsg : Archive.TelegramMessage :=
  ⟨"work", c3now - 90000, "Pay $100 by 2024-01-15 invoice", false, false⟩

/-- A message mentioning the configured username plus a money amount plus a
deadline date, 25 hours old. -/
def c3mentionMsg : Archive.TelegramMessage :=
  ⟨"work", c3now - 90000, "@alice pay $100 by 2024-01-15", false, false⟩

/-- The field list of a value known to be a dict (specification-side
accessor used to phrase the combination formula). -/
def objFieldsOf : Json → Obj
  | Json.obj kvs => kvs
  | _ => []

/-- A validated per-chat structure with content in several fields. -/
def c6chatA : ChatDigest :=
  { structured_data :=
      [("urgent", Json.arr [Json.str "u1"]),
       ("decisions", Json.arr [Json.str "dec1"]),
       ("topics", Json.arr [Json.obj [("topic", Json.str "t"), ("summary", Json.str "s")]]),
       ("people_updates", Json.arr []),
       ("calendar", Json.arr [Json.obj [("event", Json.str "ev"), ("date", Json.str "d")]]),
       ("unanswered_mentions", Json.arr [])]
    message_count := 2
    validation_errors := [] }

/-- A second validated per-chat structure. -/
def c6chatB : ChatDigest :=
  { structured_data :=
      [("urgent", Json.arr [Json.str "u2"]),
       ("decisions", Json.arr []),
       ("topics", Json.arr []),
       ("people_updates", Json.arr [Json.obj [("person", Json.str "p"), ("update", Json.str "x")]]),
       ("calendar", Json.arr []),
       ("unanswered_mentions", Json.arr [Json.str "m2"])]
    message_count := 1
    validation_errors := [] }

/-- The two-conversation digest map used to witness the combination claim. -/
def c6ds : List (String × ChatDigest) := [("A", c6chatA), ("B", c6chatB)]

/-- What passing schema validation guarantees about a structure's shape:
the six fields are lists, and the object-array fields hold only dicts. -/
def validShape (o : Obj) : Prop :=
  (∃ xs, getA o "urgent" = some (Json.arr xs)) ∧
  (∃ xs, getA o "decisions" = some (Json.arr xs)) ∧
  (∃ xs, getA o "unanswered_mentions" = some (Json.arr xs)) ∧
  (∃ xs, getA o "topics" = some (Json.arr xs) ∧ ∀ t ∈ xs, ∃ kvs, t = Json.obj kvs) ∧
  (∃ xs, getA o "people_updates" = some (Json.arr xs) ∧ ∀ t ∈ xs, ∃ kvs, t = Json.obj kvs) ∧
  (∃ xs, getA o "calendar" = some (Json.arr xs) ∧ ∀ t ∈ xs, ∃ kvs, t = Json.obj kvs)

end TelegramDigest

namespace TelegramDigest

/-! Association-list lemmas. -/

theorem getA_setA_self {α : Type} (l : List (String × α)) (k : String) (v : α) :
    getA (setA l k v) k = some v := by
  induction l with
  | nil => simp [setA, getA]
  | cons p rest ih =>
      obtain ⟨a, b⟩ := p
      by_cases h : a = k
      · simp [setA, h, getA]
      · simp [setA, h, getA, ih]

theorem getA_setA_ne {α : Type} (l : List (String × α)) (k key : String) (v : α)
    (h : k ≠ key) : getA (setA l k v) key = getA l key := by
  induction l with
  | nil => simp [setA, getA, h]
  | cons p rest ih =>
      obtain ⟨a, b⟩ := p
      by_cases ha : a = k
      · subst ha; simp [setA, getA, h, ih]
      · simp [setA, ha, getA, ih]

theorem hasKeyA_setA_self {α : Type} (l : List (String × α)) (k : String) (v : α) :
    hasKeyA (setA l k v) k = true := by
  simp [hasKeyA, getA_setA_self]

theorem hasKeyA_setA_ne {α : Type} (l : List (String × α)) (k key : String) (v : α)
    (h : k ≠ key) : hasKeyA (setA l k v) key = hasKeyA l key := by
  simp [hasKeyA, getA_setA_ne l k key v h]

theorem keysA_setA {α : Type} (l : List (String × α)) (k : String) (v : α)
    (h : hasKeyA l k = true) : keysA (setA l k v) = keysA l := by
  induction l with
  | nil => simp [hasKeyA, getA] at h
  | cons p rest ih =>
      obtain ⟨a, b⟩ := p
      by_cases ha : a = k
      · simp [setA, ha, keysA]
      · simp [hasKeyA, getA, ha] at h
        simp [setA, ha, keysA] at ih ⊢
        exact ih h

theorem getA_append {α : Type} (l₁ l₂ : List (String × α)) (k : String) :
    getA (l₁ ++ l₂) k =
      (match getA l₁ k with
       | some v => some v
       | none => getA l₂ k) := by
  induction l₁ with
  | nil => simp [getA]
  | cons p rest ih =>
      obtain ⟨a, b⟩ := p
      by_cases ha : a = k
      · simp [getA, ha]
      · simp [getA, ha, ih]

theorem getA_map_promote {α β : Type} (f : String → α → β) (l : List (String × α))
    (k : String) :
    getA (l.map (fun p => (p.1, f p.1 p.2))) k = (getA l k).map (f k) := by
  induction l with
  | nil => simp [getA]
  | cons p rest ih =>
      obtain ⟨a, b⟩ := p
      by_cases ha : a = k
      · subst ha; simp [getA]
      · simp [getA, ha, ih]

/-! Shape lemmas about schema validation and repair. -/

theorem isListJ_some_arr (v : Option Json) (h : isListJ v = true) :
    ∃ xs, v = some (Json.arr xs) := by
  match v with
  | some (Json.arr xs) => exact ⟨xs, rfl⟩
  | some Json.null | some (Json.bool _) | some (Json.num _) | some (Json.str _)
  | some (Json.obj _) | none => simp [isListJ] at h

theorem isListJ_fixArrayField_self (d : Obj) (f : String) :
    isListJ (getA (fixArrayField d f) f) = true := by
  unfold fixArrayField
  split
  · assumption
  · simp [getA_setA_self, isListJ]

theorem getA_fixArrayField_ne (d : Obj) (f k : String) (h : f ≠ k) :
    getA (fixArrayField d f) k = getA d k := by
  unfold fixArrayField
  split
  · rfl
  · exact getA_setA_ne d f k _ h

theorem getA_fixObjArrayField_self (d : Obj) (f : String) (fx : Json → Option Json) :
    getA (fixObjArrayField d f fx) f =
      some (Json.arr ((elemsOf (getA d f)).filterMap fx)) :=
  getA_setA_self d f _

theorem getA_fixObjArrayField_ne (d : Obj) (f k : String) (fx : Json → Option Json)
    (h : f ≠ k) : getA (fixObjArrayField d f fx) k = getA d k :=
  getA_setA_ne d f k _ h

theorem elemErrors_eq_nil {check : Nat → Json → Option String} {xs : List Json}
    (h : ∀ t ∈ xs, ∀ i, check i t = none) : ∀ i, elemErrors check i xs = [] := by
  induction xs with
  | nil => intro i; rfl
  | cons t rest ih =>
      intro i
      have ht := h t (by simp) i
      have hrest : ∀ u ∈ rest, ∀ j, check j u = none := fun u hu j => h u (by simp [hu]) j
      simp [elemErrors, ht, ih hrest (i + 1)]

theorem fixTopicElem_wellformed {t t' : Json} (h : fixTopicElem t = some t') :
    ∀ i, topicElemError i t' = none := by
  intro i
  match t with
  | Json.obj kvs =>
      simp only [fixTopicElem] at h
      by_cases hks : (hasKeyA kvs "topic" && hasKeyA kvs "summary") = true
      · rw [if_pos hks] at h
        obtain rfl := Option.some.inj h
        simp [topicElemError, hasKeyA, getA]
      · rw [if_neg hks] at h
        exact absurd h (by simp)
  | Json.null | Json.bool _ | Json.num _ | Json.str _ | Json.arr _ =>
      simp [fixTopicElem] at h

theorem fixPersonElem_wellformed {t t' : Json} (h : fixPersonElem t = some t') :
    ∀ i, personElemError i t' = none := by
  intro i
  match t with
  | Json.obj kvs =>
      simp only [fixPersonElem] at h
      by_cases hks : (hasKeyA kvs "person" && hasKeyA kvs "update") = true
      · rw [if_pos hks] at h
        obtain rfl := Option.some.inj h
        simp [personElemError, hasKeyA, getA]
      · rw [if_neg hks] at h
        exact absurd h (by simp)
  | Json.null | Json.bool _ | Json.num _ | Json.str _ | Json.arr _ =>
      simp [fixPersonElem] at h

theorem fixCalendarElem_wellformed {t t' : Json} (h : fixCalendarElem t = some t') :
    ∀ i, calendarElemError i t' = none := by
  intro i
  match t with
  | Json.obj kvs =>
      simp only [fixCalendarElem] at h
      by_cases hks : (hasKeyA kvs "event" && hasKeyA kvs "date") = true
      · rw [if_pos hks] at h
        obtain rfl := Option.some.inj h
        simp [calendarElemError, hasKeyA, getA]
      · rw [if_neg hks] at h
        exact absurd h (by simp)
  | Json.null | Json.bool _ | Json.num _ | Json.str _ | Json.arr _ =>
      simp [fixCalendarElem] at h

/-- Validation succeeds (with no errors at all) on any dict whose six fields
are lists whose object-array elements all pass their per-element checks. -/
theorem validate_of_shapes (o : Obj) (us ds ums ts ps cs : List Json)
    (hu : getA o "urgent" = some (Json.arr us))
    (hd : getA o "decisions" = some (Json.arr ds))
    (hm : getA o "unanswered_mentions" = some (Json.arr ums))
    (ht : getA o "topics" = some (Json.arr ts))
    (hp : getA o "people_updates" = some (Json.arr ps))
    (hc : getA o "calendar" = some (Json.arr cs))
    (h1 : ∀ t ∈ ts, ∀ i, topicElemError i t = none)
    (h2 : ∀ t ∈ ps, ∀ i, personElemError i t = none)
    (h3 : ∀ t ∈ cs, ∀ i, calendarElemError i t = none) :
    validate_digest_schema o = ⟨true, []⟩ := by
  have e1 := elemErrors_eq_nil h1 0
  have e2 := elemErrors_eq_nil h2 0
  have e3 := elemErrors_eq_nil h3 0
  simp [validate_digest_schema, requiredFields, hasKeyA, hu, hd, hm, ht, hp, hc,
    isListJ, arrayFieldErrors, e1, e2, e3]

/-- The synthesized `messages`-branch structure is always schema-valid. -/
theorem validate_messagesBranch (txt : String) :
    validate_digest_schema (messagesBranch txt) = ⟨true, []⟩ := by
  by_cases h1 : (lowerContains txt "urgent" || lowerContains txt "asap") = true <;>
    by_cases h2 : (lowerContains txt "decision" || lowerContains txt "decided") = true <;>
      by_cases h3 : (lowerContains txt "meeting" || lowerContains txt "deadline") = true <;>
        simp [messagesBranch, h1, h2, h3, validate_digest_schema, requiredFields, hasKeyA,
          getA, isListJ, arrayFieldErrors, elemErrors, topicElemError, calendarElemError]

/-- Schema repair always lands in the schema-valid subset, with no
residual errors at all. -/
theorem fix_valid (data : Obj) :
    validate_digest_schema (fix_digest_schema data) = ⟨true, []⟩ := by
  unfold fix_digest_schema
  split
  · exact validate_messagesBranch _
  · set d3 := fixArrayField (fixArrayField (fixArrayField data "urgent") "decisions")
      "unanswered_mentions" with hd3
    set d4 := fixObjArrayField d3 "topics" fixTopicElem with hd4
    set d5 := fixObjArrayField d4 "people_updates" fixPersonElem with hd5
    have hu : isListJ (getA d3 "urgent") = true := by
      rw [hd3, getA_fixArrayField_ne _ _ _ (by decide), getA_fixArrayField_ne _ _ _ (by decide)]
      exact isListJ_fixArrayField_self data "urgent"
    have hdec : isListJ (getA d3 "decisions") = true := by
      rw [hd3, getA_fixArrayField_ne _ _ _ (by decide)]
      exact isListJ_fixArrayField_self _ "decisions"
    have hum : isListJ (getA d3 "unanswered_mentions") = true := by
      rw [hd3]
      exact isListJ_fixArrayField_self _ "unanswered_mentions"
    obtain ⟨us, hus⟩ := isListJ_some_arr _ hu
    obtain ⟨dss, hdss⟩ := isListJ_some_arr _ hdec
    obtain ⟨ums, hums⟩ := isListJ_some_arr _ hum
    refine validate_of_shapes _ us dss ums
      ((elemsOf (getA d3 "topics")).filterMap fixTopicElem)
      ((elemsOf (getA d4 "people_updates")).filterMap fixPersonElem)
      ((elemsOf (getA d5 "calendar")).filterMap fixCalendarElem)
      ?_ ?_ ?_ ?_ ?_ ?_ ?_ ?_ ?_
    · rw [getA_fixObjArrayField_ne _ _ _ _ (by decide), hd5,
        getA_fixObjArrayField_ne _ _ _ _ (by decide), hd4,
        getA_fixObjArrayField_ne _ _ _ _ (by decide)]
      exact hus
    · rw [getA_fixObjArrayField_ne _ _ _ _ (by decide), hd5,
        getA_fixObjArrayField_ne _ _ _ _ (by decide), hd4,
        getA_fixObjArrayField_ne _ _ _ _ (by decide)]
      exact hdss
    · rw [getA_fixObjArrayField_ne _ _ _ _ (by decide), hd5,
        getA_fixObjArrayField_ne _ _ _ _ (by decide), hd4,
        getA_fixObjArrayField_ne _ _ _ _ (by decide)]
      exact hums
    · rw [getA_fixObjArrayField_ne _ _ _ _ (by decide), hd5,
        getA_fixObjArrayField_ne _ _ _ _ (by decide), hd4]
      exact getA_fixObjArrayField_self d3 "topics" fixTopicElem
    · rw [getA_fixObjArrayField_ne _ _ _ _ (by decide), hd5]
      exact getA_fixObjArrayField_self d4 "people_updates" fixPersonElem
    · exact getA_fixObjArrayField_self d5 "calendar" fixCalendarElem
    · intro t htm i
      obtain ⟨a, _, ha⟩ := List.mem_filterMap.mp htm
      exact fixTopicElem_wellformed ha i
    · intro t htm i
      obtain ⟨a, _, ha⟩ := List.mem_filterMap.mp htm
      exact fixPersonElem_wellformed ha i
    · intro t htm i
      obtain ⟨a, _, ha⟩ := List.mem_filterMap.mp htm
      exact fixCalendarElem_wellformed ha i

/-- Claim C1: schema repair is total onto the valid subset — every dict the
validator rejects re-validates as valid after `_fix_digest_schema` (missing
or mistyped list fields reset to empty lists, malformed object-array
elements dropped) — and a digest dict missing required keys is reported
invalid with a single error naming the missing keys. -/
theorem c1_schema_repair_total :
    (∀ data : Obj, (validate_digest_schema data).valid = false →
      (validate_digest_schema (fix_digest_schema data)).valid = true) ∧
    (∀ data : Obj, requiredFields.filter (fun f => !hasKeyA data f) ≠ [] →
      validate_digest_schema data =
        ⟨false, ["Missing required fields: " ++
          pyListRepr (requiredFields.filter (fun f => !hasKeyA data f))]⟩) := by
  constructor
  · intro data _
    rw [fix_valid]
  · intro data h
    unfold validate_digest_schema
    rw [if_neg]
    simp [List.isEmpty_iff, h]

/-- Witness for C1 at the empty dict: it is invalid (all six keys missing,
one error naming them), and its repair is valid. -/
theorem c1_schema_repair_total_witness :
    (validate_digest_schema []).valid = false ∧
    (validate_digest_schema (fix_digest_schema [])).valid = true ∧
    validate_digest_schema [] =
      ⟨false, ["Missing required fields: " ++ pyListRepr requiredFields]⟩ := by
  refine ⟨by decide, c1_schema_repair_total.1 [] (by decide), ?_⟩
  have h := c1_schema_repair_total.2 [] (by decide)
  have hfilter : requiredFields.filter (fun f => !hasKeyA ([] : Obj) f) = requiredFields := by
    decide
  rw [hfilter] at h
  exact h

/-- A dict the validator accepts carries all six required keys. -/
theorem valid_hasKeys {o : Obj} (h : (validate_digest_schema o).valid = true) :
    ∀ f ∈ requiredFields, hasKeyA o f = true := by
  intro f hf
  by_cases hm : (requiredFields.filter (fun g => !hasKeyA o g)).isEmpty = true
  · have := List.filter_eq_nil_iff.mp (List.isEmpty_iff.mp hm) f hf
    simpa using this
  · exfalso
    simp only [validate_digest_schema] at h
    rw [if_neg hm] at h
    exact Bool.false_ne_true h

/-- Claim C2 counterexample: a schema-valid LLM output carrying an extra
top-level key flows through the class-based validate-then-fix path
unchanged, so the produced digest value still has a seventh key — the
claim's "no other top-level keys" fails on that path. -/
theorem c2_counterexample :
    (validate_digest_schema extraKeyObj).valid = true ∧
    hasKeyA (process_chat (fun _ => Except.ok extraKeyObj) "general" []).structured_data
      "extra" = true := by
  decide

/-- Claim C2 (amended): every digest value produced by the class-based
validate-then-fix path contains the six required keys (malformed entries
are dropped rather than causing failure), and the standalone
`DigestStructure.validate` returns a value whose keys are exactly the six —
unknown/extra keys are dropped there, while the class-based path preserves
them. -/
theorem c2_six_keys_invariant :
    (∀ (llm : String → Except String Obj) (c : String) (ms : List FMsg),
      ∀ f ∈ requiredFields, hasKeyA (process_chat llm c ms).structured_data f = true) ∧
    (∀ (j : Json) (v : Obj), DigestStructure.validate j = Except.ok v →
      keysA v = requiredFields) := by
  constructor
  · intro llm c ms f hf
    cases hl : llm c with
    | error e =>
        have hs : (process_chat llm c ms).structured_data = empty_structure := by
          simp [process_chat, hl]
        rw [hs]
        simp only [requiredFields, List.mem_cons, List.not_mem_nil, or_false] at hf
        rcases hf with rfl | rfl | rfl | rfl | rfl | rfl <;> decide
    | ok data =>
        by_cases hv : (validate_digest_schema data).valid = true
        · have hs : (process_chat llm c ms).structured_data = data := by
            simp [process_chat, hl, hv]
          rw [hs]
          exact valid_hasKeys hv f hf
        · have hs : (process_chat llm c ms).structured_data = fix_digest_schema data := by
            simp [process_chat, hl, hv]
          rw [hs]
          exact valid_hasKeys (by rw [fix_valid]) f hf
  · intro j v h
    match j with
    | Json.obj o =>
        simp only [DigestStructure.validate] at h
        match htf : DigestStructure.topicsField o with
        | Except.ok tps =>
            rw [htf] at h
            obtain rfl := (Except.ok.inj h).symm
            simp [keysA, requiredFields]
        | Except.error e =>
            rw [htf] at h
            exact absurd h (by simp)
    | Json.null | Json.bool _ | Json.num _ | Json.str _ | Json.arr _ =>
        simp only [DigestStructure.validate] at h
        obtain rfl := (Except.ok.inj h).symm
        decide

/-- Witness for C2 at a concrete oracle returning the extra-key dict for
chat "general", and at the input `3` for the standalone validator. -/
theorem c2_six_keys_invariant_witness :
    ("urgent" ∈ requiredFields ∧
      hasKeyA (process_chat (fun _ => Except.ok extraKeyObj) "general" []).structured_data
        "urgent" = true) ∧
    (DigestStructure.validate (Json.num 3) = Except.ok empty_structure ∧
      keysA empty_structure = requiredFields) :=
  ⟨⟨by decide,
    c2_six_keys_invariant.1 (fun _ => Except.ok extraKeyObj) "general" [] "urgent" (by decide)⟩,
   ⟨rfl, c2_six_keys_invariant.2 (Json.num 3) empty_structure rfl⟩⟩

/-- Claim C5: on an empty filtered-message list, `generate_digest` succeeds
with digest text exactly "No new messages to digest.", the all-empty
six-field structure, and metadata `message_count = 0`.  The result is the
same fixed record for every LLM oracle — the equation holds for arbitrary
`llm`, which is how the embedding expresses that the LLM provider layer is
never consulted on this path. -/
theorem c5_empty_input_short_circuit (llm : String → Except String Obj)
    (provider_info : Json) (now : String) :
    generate_digest llm provider_info now [] =
      { success := true
        digest_text := "No new messages to digest."
        structured_data := empty_structure
        error_message := none
        metadata := [("message_count", Json.num 0), ("generated_at", Json.str now)] } :=
  rfl

/-- Lookup in the processed-chats map is the independent processing of the
looked-up chat. -/
theorem getA_process_chats (llm : String → Except String Obj)
    (groups : List (String × List FMsg)) (c : String) :
    getA (process_chats llm groups) c = (getA groups c).map (process_chat llm c) :=
  getA_map_promote (fun k v => process_chat llm k v) groups c

/-- Claim C4 as amended: if the LLM call for one conversation `b` fails,
and the digest-text rendering of the processed chats raises no error, then
the overall result has `success = true`, conversation `b` degrades to the
all-empty six-field structure with the failure reason in its validation
errors, the metadata's `chat_details` entry for `b` records that reason,
and every conversation's digest is still the result of its own independent
processing (so the other conversations are unaffected by `b`'s failure).
The rendering proviso is necessary: the claim's unconditional form is
refuted by `c4_counterexample`, where a schema-valid structure with a
non-string participants element makes the renderer raise `TypeError`,
flipping the whole run to `success = false` with no `chat_details`. -/
theorem c4_per_chat_failure_isolation
    (llm : String → Except String Obj) (provider_info : Json) (now : String)
    (msgs : List FMsg) (b e : String) (ms : List FMsg)
    (hb : getA (group_messages msgs) b = some ms)
    (hfail : llm b = Except.error e)
    (hrender : ∃ text,
      format_multi_chat_digest_text (process_chats llm (group_messages msgs)) now =
        Except.ok text) :
    (generate_digest llm provider_info now msgs).success = true ∧
    getA (process_chats llm (group_messages msgs)) b =
      some { structured_data := empty_structure
             message_count := ms.length
             validation_errors := ["Failed to process: " ++ e] } ∧
    (∃ details,
      getA (generate_digest llm provider_info now msgs).metadata "chat_details" =
        some (Json.obj details) ∧
      getA details b = some (Json.obj
        [("message_count", Json.num ms.length),
         ("validation_errors", Json.arr [Json.str ("Failed to process: " ++ e)])])) ∧
    (∀ c msC, getA (group_messages msgs) c = some msC →
      getA (process_chats llm (group_messages msgs)) c = some (process_chat llm c msC)) := by
  obtain ⟨text, htext⟩ := hrender
  have hne : msgs ≠ [] := by
    intro h
    subst h
    simp [group_messages, getA] at hb
  have hpcb : getA (process_chats llm (group_messages msgs)) b =
      some { structured_data := empty_structure
             message_count := ms.length
             validation_errors := ["Failed to process: " ++ e] } := by
    rw [getA_process_chats, hb]
    simp [process_chat, hfail]
  refine ⟨?_, hpcb, ?_, ?_⟩
  · simp [generate_digest, List.isEmpty_eq_false.mpr hne, htext]
  · have hmeta : (generate_digest llm provider_info now msgs).metadata =
        digestMetadata provider_info now msgs.length
          (process_chats llm (group_messages msgs)) := by
      simp [generate_digest, List.isEmpty_eq_false.mpr hne, htext]
    refine ⟨(process_chats llm (group_messages msgs)).map (fun d =>
      (d.1, Json.obj
        [("message_count", Json.num d.2.message_count),
         ("validation_errors", Json.arr (d.2.validation_errors.map Json.str))])),
      by rw [hmeta]; rfl, ?_⟩
    have hdet := getA_map_promote
      (fun _ (v : ChatDigest) => Json.obj
        [("message_count", Json.num v.message_count),
         ("validation_errors", Json.arr (v.validation_errors.map Json.str))])
      (process_chats llm (group_messages msgs)) b
    rw [hdet, hpcb]
    rfl
  · intro c msC hc
    rw [getA_process_chats, hc]
    rfl

/-- Witness for C4: two chats "A" and "B", the oracle failing on "B" with
reason "boom" and succeeding on "A" with the empty structure; both rendered
blocks take the no-content branch, so the rendering proviso holds. -/
theorem c4_per_chat_failure_isolation_witness :
    getA (group_messages [⟨"A"⟩, ⟨"B"⟩]) "B" = some [⟨"B"⟩] ∧
    (fun c => if c = "B" then Except.error "boom"
              else Except.ok (empty_structure : Obj)) "B" = Except.error "boom" ∧
    ((generate_digest
        (fun c => if c = "B" then Except.error "boom" else Except.ok empty_structure)
        Json.null "now" [⟨"A"⟩, ⟨"B"⟩]).success = true ∧
      getA (process_chats
        (fun c => if c = "B" then Except.error "boom" else Except.ok empty_structure)
        (group_messages [⟨"A"⟩, ⟨"B"⟩])) "B" =
        some { structured_data := empty_structure
               message_count := 1
               validation_errors := ["Failed to process: " ++ "boom"] } ∧
      (∃ details,
        getA (generate_digest
          (fun c => if c = "B" then Except.error "boom" else Except.ok empty_structure)
          Json.null "now" [⟨"A"⟩, ⟨"B"⟩]).metadata "chat_details" =
          some (Json.obj details) ∧
        getA details "B" = some (Json.obj
          [("message_count", Json.num 1),
           ("validation_errors", Json.arr [Json.str ("Failed to process: " ++ "boom")])])) ∧
      (∀ c msC, getA (group_messages [(⟨"A"⟩ : FMsg), ⟨"B"⟩]) c = some msC →
        getA (process_chats
          (fun c => if c = "B" then Except.error "boom" else Except.ok empty_structure)
          (group_messages [⟨"A"⟩, ⟨"B"⟩])) c =
          some (process_chat
            (fun c => if c = "B" then Except.error "boom" else Except.ok empty_structure)
            c msC))) :=
  ⟨rfl, rfl,
    c4_per_chat_failure_isolation
      (fun c => if c = "B" then Except.error "boom" else Except.ok empty_structure)
      Json.null "now" [⟨"A"⟩, ⟨"B"⟩] "B" "boom" [⟨"B"⟩] rfl rfl ⟨_, rfl⟩⟩

/-- Counterexample to claim C4 as stated: the oracle fails on chat "B"
(with "boom") and succeeds on chat "A" with `c4badObj`, a structure that
passes schema validation yet holds a non-string participants element.  The
renderer's `', '.join(topic['participants'])` raises `TypeError`, the
outer `except` of `generate_digest` catches it, and the run ends with
`success = false` and metadata without any `chat_details` entry — so a
single conversation's LLM failure is not isolated from the overall result
on this input. -/
theorem c4_counterexample :
    (fun c => if c = "B" then Except.error "boom"
              else Except.ok c4badObj) "B" = Except.error "boom" ∧
    getA (group_messages [(⟨"A"⟩ : FMsg), ⟨"B"⟩]) "B" = some [⟨"B"⟩] ∧
    (validate_digest_schema c4badObj).valid = true ∧
    (generate_digest
      (fun c => if c = "B" then Except.error "boom" else Except.ok c4badObj)
      Json.null "now" [⟨"A"⟩, ⟨"B"⟩]).success = false ∧
    getA (generate_digest
      (fun c => if c = "B" then Except.error "boom" else Except.ok c4badObj)
      Json.null "now" [⟨"A"⟩, ⟨"B"⟩]).metadata "chat_details" = none :=
  ⟨rfl, rfl, rfl, rfl, rfl⟩

/-- An empty per-element error list means every element passes its check at
some index. -/
theorem elemErrors_nil_mem {check : Nat → Json → Option String} {xs : List Json} :
    ∀ {i}, elemErrors check i xs = [] → ∀ t ∈ xs, ∃ j, check j t = none := by
  induction xs with
  | nil => intro i _ t ht; simp at ht
  | cons u rest ih =>
      intro i h t ht
      cases hc : check i u with
      | some e => simp [elemErrors, hc] at h
      | none =>
          simp only [elemErrors, hc] at h
          rcases List.mem_cons.mp ht with rfl | ht
          · exact ⟨i, hc⟩
          · exact ih h t ht

theorem topicElemError_none_obj {t : Json} {j : Nat} (h : topicElemError j t = none) :
    ∃ kvs, t = Json.obj kvs := by
  match t with
  | Json.obj kvs => exact ⟨kvs, rfl⟩
  | Json.null | Json.bool _ | Json.num _ | Json.str _ | Json.arr _ =>
      simp [topicElemError] at h

theorem personElemError_none_obj {t : Json} {j : Nat} (h : personElemError j t = none) :
    ∃ kvs, t = Json.obj kvs := by
  match t with
  | Json.obj kvs => exact ⟨kvs, rfl⟩
  | Json.null | Json.bool _ | Json.num _ | Json.str _ | Json.arr _ =>
      simp [personElemError] at h

theorem calendarElemError_none_obj {t : Json} {j : Nat} (h : calendarElemError j t = none) :
    ∃ kvs, t = Json.obj kvs := by
  match t with
  | Json.obj kvs => exact ⟨kvs, rfl⟩
  | Json.null | Json.bool _ | Json.num _ | Json.str _ | Json.arr _ =>
      simp [calendarElemError] at h

theorem arrayFieldErrors_nil {f : String} {check : Nat → Json → Option String}
    {v : Option Json} (h : arrayFieldErrors f check v = []) :
    ∃ xs, v = some (Json.arr xs) ∧ elemErrors check 0 xs = [] := by
  match v with
  | some (Json.arr xs) => exact ⟨xs, rfl, h⟩
  | some Json.null | some (Json.bool _) | some (Json.num _) | some (Json.str _)
  | some (Json.obj _) | none => simp [arrayFieldErrors] at h

/-- A structure the validator accepts has the six-list dict-element shape. -/
theorem valid_shapes {o : Obj} (h : (validate_digest_schema o).valid = true) :
    validShape o := by
  by_cases hm : (requiredFields.filter (fun f => !hasKeyA o f)).isEmpty = true
  · simp only [validate_digest_schema] at h
    rw [if_pos hm] at h
    have herr := List.isEmpty_iff.mp h
    obtain ⟨hABC, hD⟩ := List.append_eq_nil.mp herr
    obtain ⟨hAB, hC⟩ := List.append_eq_nil.mp hABC
    obtain ⟨hA, hB⟩ := List.append_eq_nil.mp hAB
    have hsimple := List.filterMap_eq_nil_iff.mp hA
    have hu : isListJ (getA o "urgent") = true := by
      have hx := hsimple "urgent" (by simp)
      by_cases hi : isListJ (getA o "urgent") = true
      · exact hi
      · simp [hi] at hx
    have hd : isListJ (getA o "decisions") = true := by
      have hx := hsimple "decisions" (by simp)
      by_cases hi : isListJ (getA o "decisions") = true
      · exact hi
      · simp [hi] at hx
    have hum : isListJ (getA o "unanswered_mentions") = true := by
      have hx := hsimple "unanswered_mentions" (by simp)
      by_cases hi : isListJ (getA o "unanswered_mentions") = true
      · exact hi
      · simp [hi] at hx
    obtain ⟨us, hus⟩ := isListJ_some_arr _ hu
    obtain ⟨dss, hdss⟩ := isListJ_some_arr _ hd
    obtain ⟨ums, hums⟩ := isListJ_some_arr _ hum
    obtain ⟨ts, hts, hte⟩ := arrayFieldErrors_nil hB
    obtain ⟨ps, hps, hpe⟩ := arrayFieldErrors_nil hC
    obtain ⟨cs, hcs, hce⟩ := arrayFieldErrors_nil hD
    refine ⟨⟨us, hus⟩, ⟨dss, hdss⟩, ⟨ums, hums⟩, ⟨ts, hts, ?_⟩, ⟨ps, hps, ?_⟩,
      ⟨cs, hcs, ?_⟩⟩
    · intro t ht
      obtain ⟨j, hj⟩ := elemErrors_nil_mem hte t ht
      exact topicElemError_none_obj hj
    · intro t ht
      obtain ⟨j, hj⟩ := elemErrors_nil_mem hpe t ht
      exact personElemError_none_obj hj
    · intro t ht
      obtain ⟨j, hj⟩ := elemErrors_nil_mem hce t ht
      exact calendarElemError_none_obj hj
  · exfalso
    simp only [validate_digest_schema] at h
    rw [if_neg hm] at h
    exact Bool.false_ne_true h

/-- Claim C6: for validated per-conversation structures, combination yields
the per-field concatenation over conversations in iteration order, each
simple entry prefixed with `[<chat>] ` and each object element copied with
an added `source_chat` key naming its conversation. -/
theorem c6_combination_correctness (ds : List (String × ChatDigest))
    (hvalid : ∀ p ∈ ds, (validate_digest_schema p.2.structured_data).valid = true) :
    (∀ p ∈ ds, validShape p.2.structured_data) ∧
    combine_chat_digests ds =
      [("urgent", Json.arr (ds.flatMap (fun d =>
          (elemsOf (getA d.2.structured_data "urgent")).map
            (fun item => Json.str ("[" ++ d.1 ++ "] " ++ pyStr item))))),
       ("decisions", Json.arr (ds.flatMap (fun d =>
          (elemsOf (getA d.2.structured_data "decisions")).map
            (fun item => Json.str ("[" ++ d.1 ++ "] " ++ pyStr item))))),
       ("topics", Json.arr (ds.flatMap (fun d =>
          (elemsOf (getA d.2.structured_data "topics")).map
            (fun t => Json.obj (setA (objFieldsOf t) "source_chat" (Json.str d.1)))))),
       ("people_updates", Json.arr (ds.flatMap (fun d =>
          (elemsOf (getA d.2.structured_data "people_updates")).map
            (fun t => Json.obj (setA (objFieldsOf t) "source_chat" (Json.str d.1)))))),
       ("calendar", Json.arr (ds.flatMap (fun d =>
          (elemsOf (getA d.2.structured_data "calendar")).map
            (fun t => Json.obj (setA (objFieldsOf t) "source_chat" (Json.str d.1)))))),
       ("unanswered_mentions", Json.arr (ds.flatMap (fun d =>
          (elemsOf (getA d.2.structured_data "unanswered_mentions")).map
            (fun item => Json.str ("[" ++ d.1 ++ "] " ++ pyStr item)))))] := by
  have hshape : ∀ p ∈ ds, validShape p.2.structured_data :=
    fun p hp => valid_shapes (hvalid p hp)
  refine ⟨hshape, ?_⟩
  have hur : (ds.flatMap (fun d => prefixEntries d.1 (getA d.2.structured_data "urgent"))) =
      ds.flatMap (fun d => (elemsOf (getA d.2.structured_data "urgent")).map
        (fun item => Json.str ("[" ++ d.1 ++ "] " ++ pyStr item))) := by
    refine List.flatMap_congr (fun p hp => ?_)
    obtain ⟨⟨xs, hx⟩, _, _, _, _, _⟩ := hshape p hp
    rw [hx]
    rfl
  have hdec : (ds.flatMap (fun d => prefixEntries d.1 (getA d.2.structured_data "decisions"))) =
      ds.flatMap (fun d => (elemsOf (getA d.2.structured_data "decisions")).map
        (fun item => Json.str ("[" ++ d.1 ++ "] " ++ pyStr item))) := by
    refine List.flatMap_congr (fun p hp => ?_)
    obtain ⟨_, ⟨xs, hx⟩, _, _, _, _⟩ := hshape p hp
    rw [hx]
    rfl
  have hum : (ds.flatMap (fun d =>
      prefixEntries d.1 (getA d.2.structured_data "unanswered_mentions"))) =
      ds.flatMap (fun d => (elemsOf (getA d.2.structured_data "unanswered_mentions")).map
        (fun item => Json.str ("[" ++ d.1 ++ "] " ++ pyStr item))) := by
    refine List.flatMap_congr (fun p hp => ?_)
    obtain ⟨_, _, ⟨xs, hx⟩, _, _, _⟩ := hshape p hp
    rw [hx]
    rfl
  have htop : (ds.flatMap (fun d => annotateEntries d.1 (getA d.2.structured_data "topics"))) =
      ds.flatMap (fun d => (elemsOf (getA d.2.structured_data "topics")).map
        (fun t => Json.obj (setA (objFieldsOf t) "source_chat" (Json.str d.1)))) := by
    refine List.flatMap_congr (fun p hp => ?_)
    obtain ⟨_, _, _, ⟨xs, hx, hobj⟩, _, _⟩ := hshape p hp
    rw [hx]
    simp only [annotateEntries, elemsOf]
    refine List.map_congr_left (fun t ht => ?_)
    obtain ⟨kvs, rfl⟩ := hobj t ht
    rfl
  have hpu : (ds.flatMap (fun d =>
      annotateEntries d.1 (getA d.2.structured_data "people_updates"))) =
      ds.flatMap (fun d => (elemsOf (getA d.2.structured_data "people_updates")).map
        (fun t => Json.obj (setA (objFieldsOf t) "source_chat" (Json.str d.1)))) := by
    refine List.flatMap_congr (fun p hp => ?_)
    obtain ⟨_, _, _, _, ⟨xs, hx, hobj⟩, _⟩ := hshape p hp
    rw [hx]
    simp only [annotateEntries, elemsOf]
    refine List.map_congr_left (fun t ht => ?_)
    obtain ⟨kvs, rfl⟩ := hobj t ht
    rfl
  have hcal : (ds.flatMap (fun d => annotateEntries d.1 (getA d.2.structured_data "calendar"))) =
      ds.flatMap (fun d => (elemsOf (getA d.2.structured_data "calendar")).map
        (fun t => Json.obj (setA (objFieldsOf t) "source_chat" (Json.str d.1)))) := by
    refine List.flatMap_congr (fun p hp => ?_)
    obtain ⟨_, _, _, _, _, ⟨xs, hx, hobj⟩⟩ := hshape p hp
    rw [hx]
    simp only [annotateEntries, elemsOf]
    refine List.map_congr_left (fun t ht => ?_)
    obtain ⟨kvs, rfl⟩ := hobj t ht
    rfl
  simp only [combine_chat_digests, hur, hdec, hum, htop, hpu, hcal]

/-- Witness for C6 at the concrete two-conversation map `c6ds`. -/
theorem c6_combination_correctness_witness :
    (∀ p ∈ c6ds, (validate_digest_schema p.2.structured_data).valid = true) ∧
    ((∀ p ∈ c6ds, validShape p.2.structured_data) ∧
      combine_chat_digests c6ds =
        [("urgent", Json.arr (c6ds.flatMap (fun d =>
            (elemsOf (getA d.2.structured_data "urgent")).map
              (fun item => Json.str ("[" ++ d.1 ++ "] " ++ pyStr item))))),
         ("decisions", Json.arr (c6ds.flatMap (fun d =>
            (elemsOf (getA d.2.structured_data "decisions")).map
              (fun item => Json.str ("[" ++ d.1 ++ "] " ++ pyStr item))))),
         ("topics", Json.arr (c6ds.flatMap (fun d =>
            (elemsOf (getA d.2.structured_data "topics")).map
              (fun t => Json.obj (setA (objFieldsOf t) "source_chat" (Json.str d.1)))))),
         ("people_updates", Json.arr (c6ds.flatMap (fun d =>
            (elemsOf (getA d.2.structured_data "people_updates")).map
              (fun t => Json.obj (setA (objFieldsOf t) "source_chat" (Json.str d.1)))))),
         ("calendar", Json.arr (c6ds.flatMap (fun d =>
            (elemsOf (getA d.2.structured_data "calendar")).map
              (fun t => Json.obj (setA (objFieldsOf t) "source_chat" (Json.str d.1)))))),
         ("unanswered_mentions", Json.arr (c6ds.flatMap (fun d =>
            (elemsOf (getA d.2.structured_data "unanswered_mentions")).map
              (fun item => Json.str ("[" ++ d.1 ++ "] " ++ pyStr item)))))]) :=
  ⟨by decide, c6_combination_correctness c6ds (by decide)⟩

set_option maxRecDepth 8192

/-- Claim C7: `save_digest_run` appends the new record and keeps exactly the
most recent 100 (oldest dropped first); saving 102 sequential records
(monotone `message_count`) from an empty history leaves exactly the last
100 of them. -/
theorem c7_history_capping :
    (∀ (history : List DigestRun) (run : DigestRun),
      save_digest_run history run = mostRecent 100 (history ++ [run])) ∧
    ((List.range 102).map seqRun).foldl save_digest_run [] =
      ((List.range 102).drop 2).map seqRun := by
  constructor
  · intro history run
    simp only [save_digest_run, mostRecent, List.take_reverse, List.reverse_reverse]
  · rfl

/-- The cursor-reset fold leaves the key set unchanged. -/
theorem reset_fold_keysA (ids : List String) :
    ∀ (cs : List (String × Int)),
      keysA (ids.foldl (fun cs chat_id =>
        if hasKeyA cs chat_id then setA cs chat_id 0 else cs) cs) = keysA cs := by
  induction ids with
  | nil => intro cs; rfl
  | cons i rest ih =>
      intro cs
      rw [List.foldl_cons, ih]
      by_cases hik : hasKeyA cs i = true
      · simp [hik, keysA_setA cs i 0 hik]
      · simp [hik]

/-- Lookup after the cursor-reset fold: identifiers already present map to
0, everything else is untouched and nothing is inserted. -/
theorem reset_fold_getA (ids : List String) :
    ∀ (cs : List (String × Int)) (k : String),
      getA (ids.foldl (fun cs chat_id =>
        if hasKeyA cs chat_id then setA cs chat_id 0 else cs) cs) k =
      if k ∈ ids ∧ hasKeyA cs k = true then some 0 else getA cs k := by
  induction ids with
  | nil => intro cs k; simp
  | cons i rest ih =>
      intro cs k
      rw [List.foldl_cons]
      by_cases hik : hasKeyA cs i = true
      · rw [if_pos hik, ih]
        by_cases hki : k = i
        · subst hki
          simp [getA_setA_self, hasKeyA_setA_self, hik]
        · rw [getA_setA_ne cs i k 0 (fun h => hki h.symm),
            hasKeyA_setA_ne cs i k 0 (fun h => hki h.symm)]
          simp [hki]
      · rw [if_neg hik, ih]
        by_cases hki : k = i
        · subst hki
          simp [hik]
        · simp [hki]

/-- Claim C8: resetting named cursors zeroes exactly the identifiers already
present (inserting nothing, leaving every other entry and the key set
untouched), and resetting with no identifiers yields the empty map; the
returned map is what `save_cursors` persists. -/
theorem c8_cursor_reset_selectivity :
    (∀ (cursors : List (String × Int)) (ids : List String), ids ≠ [] →
      keysA (reset_cursors (some ids) cursors) = keysA cursors ∧
      ∀ k, getA (reset_cursors (some ids) cursors) k =
        if k ∈ ids ∧ hasKeyA cursors k = true then some 0 else getA cursors k) ∧
    (∀ cursors : List (String × Int), reset_cursors none cursors = []) := by
  constructor
  · intro cursors ids hne
    have hred : reset_cursors (some ids) cursors =
        ids.foldl (fun cs chat_id =>
          if hasKeyA cs chat_id then setA cs chat_id 0 else cs) cursors := by
      simp [reset_cursors, hne]
    rw [hred]
    exact ⟨reset_fold_keysA ids cursors, fun k => reset_fold_getA ids cursors k⟩
  · intro cursors
    rfl

/-- Witness for C8 on the cursor map from the specification scenario. -/
theorem c8_cursor_reset_selectivity_witness :
    ((["@test1", "@test3"] : List String) ≠ []) ∧
    keysA (reset_cursors (some ["@test1", "@test3"])
        [("@test1", (100 : Int)), ("@test2", 200), ("@test3", 300)]) =
      keysA [("@test1", (100 : Int)), ("@test2", 200), ("@test3", 300)] ∧
    getA (reset_cursors (some ["@test1", "@test3"])
        [("@test1", (100 : Int)), ("@test2", 200), ("@test3", 300)]) "@test1" =
      (if "@test1" ∈ ["@test1", "@test3"] ∧
          hasKeyA [("@test1", (100 : Int)), ("@test2", 200), ("@test3", 300)] "@test1" = true
        then some 0
        else getA [("@test1", (100 : Int)), ("@test2", 200), ("@test3", 300)] "@test1") ∧
    reset_cursors none [("@test1", (100 : Int))] = [] :=
  ⟨by decide,
   (c8_cursor_reset_selectivity.1 _ ["@test1", "@test3"] (by decide)).1,
   (c8_cursor_reset_selectivity.1 _ ["@test1", "@test3"] (by decide)).2 "@test1",
   c8_cursor_reset_selectivity.2 _⟩

/-- Claim C10: backup cleanup deletes only regular files directly under
`backups/` whose name carries a parseable `_backup_<YYYYMMDD_HHMMSS>`
timestamp older than the cutoff; directories are never deleted (so the
`full_backup_<timestamp>/` directories created by `backup_all_data` are
retained for every cutoff), and entries with unparseable names are left
untouched. -/
theorem c10_backup_cleanup_frame :
    (∀ (cutoff : PDateTime) (entries : List DirEntry) (e : DirEntry),
      e ∈ entries → e.is_file = false → e ∈ cleanup_old_backups cutoff entries) ∧
    (∀ (cutoff : PDateTime) (entries : List DirEntry) (e : DirEntry),
      e ∈ entries → e ∉ cleanup_old_backups cutoff entries →
        e.is_file = true ∧
        ∃ d, parse_backup_timestamp e.name = some d ∧ dtKey d < dtKey cutoff) ∧
    (∀ (cutoff : PDateTime) (entries : List DirEntry) (e : DirEntry),
      e ∈ entries → parse_backup_timestamp e.name = none →
        e ∈ cleanup_old_backups cutoff entries) ∧
    (∀ (cutoff : PDateTime) (ts : String) (entries : List DirEntry),
      (⟨"full_backup_" ++ ts, false⟩ : DirEntry) ∈
        cleanup_old_backups cutoff (backup_all_data ts entries)) := by
  refine ⟨?_, ?_, ?_, ?_⟩
  · intro cutoff entries e he hf
    refine List.mem_filter.mpr ⟨he, ?_⟩
    simp [shouldDeleteBackup, hf]
  · intro cutoff entries e he hne
    by_cases hd : shouldDeleteBackup cutoff e = true
    · simp only [shouldDeleteBackup, Bool.and_eq_true] at hd
      obtain ⟨hfile, hmatch⟩ := hd
      refine ⟨hfile, ?_⟩
      cases hp : parse_backup_timestamp e.name with
      | none => rw [hp] at hmatch; exact absurd hmatch (by simp)
      | some d =>
          rw [hp] at hmatch
          exact ⟨d, rfl, of_decide_eq_true hmatch⟩
    · exact absurd (List.mem_filter.mpr ⟨he, by simp [hd]⟩) hne
  · intro cutoff entries e he hp
    refine List.mem_filter.mpr ⟨he, ?_⟩
    simp [shouldDeleteBackup, hp]
  · intro cutoff ts entries
    refine List.mem_filter.mpr ⟨?_, ?_⟩
    · simp [backup_all_data]
    · simp [shouldDeleteBackup]

/-- Witness for C10: a surviving `full_backup_` directory, an old
`cursors_backup_` file that is deleted (and provably parses old), an
unparseable `notes.txt` that survives, and the directory created by a full
backup surviving a later cutoff. -/
theorem c10_backup_cleanup_frame_witness :
    ((⟨"full_backup_20200101_120000", false⟩ : DirEntry) ∈
      cleanup_old_backups ⟨2024, 1, 1, 0, 0, 0⟩
        [⟨"full_backup_20200101_120000", false⟩]) ∧
    ((⟨"cursors_backup_20200101_120000.json", true⟩ : DirEntry) ∉
      cleanup_old_backups ⟨2024, 1, 1, 0, 0, 0⟩
        [⟨"cursors_backup_20200101_120000.json", true⟩] ∧
      ((⟨"cursors_backup_20200101_120000.json", true⟩ : DirEntry).is_file = true ∧
        ∃ d, parse_backup_timestamp "cursors_backup_20200101_120000.json" = some d ∧
          dtKey d < dtKey ⟨2024, 1, 1, 0, 0, 0⟩)) ∧
    ((⟨"notes.txt", true⟩ : DirEntry) ∈
      cleanup_old_backups ⟨2024, 1, 1, 0, 0, 0⟩ [⟨"notes.txt", true⟩]) ∧
    ((⟨"full_backup_" ++ "20240101_120000", false⟩ : DirEntry) ∈
      cleanup_old_backups ⟨2024, 2, 1, 0, 0, 0⟩
        (backup_all_data "20240101_120000" [])) :=
  ⟨c10_backup_cleanup_frame.1 ⟨2024, 1, 1, 0, 0, 0⟩ _ _ (by decide) rfl,
   ⟨by decide,
    c10_backup_cleanup_frame.2.1 ⟨2024, 1, 1, 0, 0, 0⟩
      [⟨"cursors_backup_20200101_120000.json", true⟩]
      ⟨"cursors_backup_20200101_120000.json", true⟩ (by decide) (by decide)⟩,
   c10_backup_cleanup_frame.2.2.1 ⟨2024, 1, 1, 0, 0, 0⟩ _ _ (by decide) (by decide),
   c10_backup_cleanup_frame.2.2.2 ⟨2024, 2, 1, 0, 0, 0⟩ "20240101_120000" []⟩

/-! Lemmas about the standalone `DigestStructure.validate` coercion. -/

theorem natDigitsRev_ne_nil (fuel m : Nat) : natDigitsRev fuel m ≠ [] := by
  cases fuel with
  | zero => simp [natDigitsRev]
  | succ f =>
      simp only [natDigitsRev]
      split <;> simp

theorem natStr_ne_empty (m : Nat) : natStr m ≠ "" := by
  unfold natStr
  intro h
  have hdata : (natDigitsRev m m).reverse = ([] : List Char) := congrArg String.data h
  exact natDigitsRev_ne_nil m m (List.reverse_eq_nil_iff.mp hdata)

theorem intStr_ne_empty (n : Int) : intStr n ≠ "" := by
  cases n with
  | ofNat m => exact natStr_ne_empty m
  | negSucc m =>
      intro h
      have hdata := congrArg String.data h
      rw [intStr, String.data_append] at hdata
      simp at hdata

theorem isEmpty_false_of_ne {s : String} (h : s ≠ "") : s.isEmpty = false := by
  rw [Bool.eq_false_iff]
  intro he
  exact h ((String.isEmpty_iff s).mp he)

theorem pyStr_ne_empty_of_truthy {v : Json} (h : pyTruthy v = true) : pyStr v ≠ "" := by
  cases v with
  | null => simp [pyTruthy] at h
  | bool b =>
      cases b with
      | true => simp [pyStr]
      | false => simp [pyTruthy] at h
  | num n => exact intStr_ne_empty n
  | str s =>
      simp only [pyTruthy, Bool.not_eq_true'] at h
      intro he
      rw [pyStr] at he
      subst he
      exact absurd h (by decide)
  | arr xs => simp [pyStr]
  | obj kvs => simp [pyStr]

theorem map_strfy_idem (xs : List Json) :
    (xs.map (fun x => Json.str (pyStr x))).map (fun x => Json.str (pyStr x)) =
      xs.map (fun x => Json.str (pyStr x)) := by
  rw [List.map_map]
  rfl

theorem strListField_decomp (o : Obj) (f : String) :
    ∃ us : List Json, DigestStructure.strListField o f =
      Json.arr (us.map (fun x => Json.str (pyStr x))) := by
  unfold DigestStructure.strListField
  cases hg : getA o f with
  | none => exact ⟨[], rfl⟩
  | some v =>
      cases v with
      | arr xs => exact ⟨xs, rfl⟩
      | null => exact ⟨[], rfl⟩
      | bool b => exact ⟨[], rfl⟩
      | num n => exact ⟨[], rfl⟩
      | str s => exact ⟨[], rfl⟩
      | obj kvs => exact ⟨[], rfl⟩

theorem peopleField_decomp (o : Obj) :
    ∃ ps : List Json, DigestStructure.peopleField o = Json.arr (DigestStructure.coercePeople ps) := by
  unfold DigestStructure.peopleField
  cases hg : getA o "people_updates" with
  | none => exact ⟨[], rfl⟩
  | some v =>
      cases v with
      | arr xs => exact ⟨xs, rfl⟩
      | null => exact ⟨[], rfl⟩
      | bool b => exact ⟨[], rfl⟩
      | num n => exact ⟨[], rfl⟩
      | str s => exact ⟨[], rfl⟩
      | obj kvs => exact ⟨[], rfl⟩

theorem calendarField_decomp (o : Obj) :
    ∃ cs : List Json, DigestStructure.calendarField o = Json.arr (DigestStructure.coerceCalendar cs) := by
  unfold DigestStructure.calendarField
  cases hg : getA o "calendar" with
  | none => exact ⟨[], rfl⟩
  | some v =>
      cases v with
      | arr xs => exact ⟨xs, rfl⟩
      | null => exact ⟨[], rfl⟩
      | bool b => exact ⟨[], rfl⟩
      | num n => exact ⟨[], rfl⟩
      | str s => exact ⟨[], rfl⟩
      | obj kvs => exact ⟨[], rfl⟩

theorem topicsField_decomp {o : Obj} {tps : Json}
    (h : DigestStructure.topicsField o = Except.ok tps) :
    ∃ zs ts : List Json,
      DigestStructure.coerceTopics zs = Except.ok ts ∧ tps = Json.arr ts := by
  unfold DigestStructure.topicsField at h
  split at h
  · rename_i xs hg
    split at h
    · rename_i ts hts
      exact ⟨xs, ts, hts, (Except.ok.inj h).symm⟩
    · exact absurd h (by simp)
  · exact ⟨[], [], rfl, (Except.ok.inj h).symm⟩

/-- An accepted value of `DigestStructure.validate` is the six-entry dict of
coerced lists. -/
theorem digest_validate_ok_decomp {j : Json} {v : Obj}
    (h : DigestStructure.validate j = Except.ok v) :
    ∃ us ds zs ts ps cs ums : List Json,
      DigestStructure.coerceTopics zs = Except.ok ts ∧
      v = [("urgent", Json.arr (us.map (fun x => Json.str (pyStr x)))),
           ("decisions", Json.arr (ds.map (fun x => Json.str (pyStr x)))),
           ("topics", Json.arr ts),
           ("people_updates", Json.arr (DigestStructure.coercePeople ps)),
           ("calendar", Json.arr (DigestStructure.coerceCalendar cs)),
           ("unanswered_mentions", Json.arr (ums.map (fun x => Json.str (pyStr x))))] := by
  cases j with
  | obj o =>
      simp only [DigestStructure.validate] at h
      split at h
      · rename_i tps htf
        obtain rfl := (Except.ok.inj h)
        obtain ⟨us, hus⟩ := strListField_decomp o "urgent"
        obtain ⟨ds2, hds⟩ := strListField_decomp o "decisions"
        obtain ⟨ums, hums⟩ := strListField_decomp o "unanswered_mentions"
        obtain ⟨ps, hps⟩ := peopleField_decomp o
        obtain ⟨cs, hcs⟩ := calendarField_decomp o
        obtain ⟨zs, ts, hzs, rfl⟩ := topicsField_decomp htf
        exact ⟨us, ds2, zs, ts, ps, cs, ums, hzs, by rw [hus, hds, hums, hps, hcs]⟩
      · exact absurd h (by simp)
  | null =>
      obtain rfl := (Except.ok.inj h)
      exact ⟨[], [], [], [], [], [], [], rfl, rfl⟩
  | bool b =>
      obtain rfl := (Except.ok.inj h)
      exact ⟨[], [], [], [], [], [], [], rfl, rfl⟩
  | num n =>
      obtain rfl := (Except.ok.inj h)
      exact ⟨[], [], [], [], [], [], [], rfl, rfl⟩
  | str s =>
      obtain rfl := (Except.ok.inj h)
      exact ⟨[], [], [], [], [], [], [], rfl, rfl⟩
  | arr xs =>
      obtain rfl := (Except.ok.inj h)
      exact ⟨[], [], [], [], [], [], [], rfl, rfl⟩

theorem coerceTopics_idem : ∀ {xs ts : List Json},
    DigestStructure.coerceTopics xs = Except.ok ts →
    DigestStructure.coerceTopics ts = Except.ok ts := by
  intro xs
  induction xs with
  | nil =>
      intro ts h
      obtain rfl := Except.ok.inj h
      rfl
  | cons t rest ih =>
      intro ts h
      cases t with
      | obj kvs =>
          simp only [DigestStructure.coerceTopics] at h
          revert h
          cases hpi : pyIter ((getA kvs "participants").getD (Json.arr [])) with
          | none => intro h; simp at h
          | some ps =>
              cases hr : DigestStructure.coerceTopics rest with
              | error e => intro h; simp at h
              | ok rs =>
                  intro h
                  obtain rfl := Except.ok.inj h
                  have hrs := ih hr
                  simp [DigestStructure.coerceTopics, DigestStructure.topicObj, getA,
                    pyIter, hrs, map_strfy_idem, pyStr]
      | null => simp only [DigestStructure.coerceTopics] at h; exact ih h
      | bool b => simp only [DigestStructure.coerceTopics] at h; exact ih h
      | num n => simp only [DigestStructure.coerceTopics] at h; exact ih h
      | str s => simp only [DigestStructure.coerceTopics] at h; exact ih h
      | arr ys => simp only [DigestStructure.coerceTopics] at h; exact ih h

theorem pyStr_str (s : String) : pyStr (Json.str s) = s := rfl

theorem pyTruthy_str (s : String) : pyTruthy (Json.str s) = !s.isEmpty := rfl

theorem pyTruthy_null : pyTruthy Json.null = false := rfl

theorem coercePeople_idem (xs : List Json) :
    DigestStructure.coercePeople (DigestStructure.coercePeople xs) =
      DigestStructure.coercePeople xs := by
  induction xs with
  | nil => rfl
  | cons u rest ih =>
      cases u with
      | obj kvs =>
          simp only [DigestStructure.coercePeople]
          rw [ih]
          simp [getA, pyStr_str]
      | null => simp only [DigestStructure.coercePeople]; exact ih
      | bool b => simp only [DigestStructure.coercePeople]; exact ih
      | num n => simp only [DigestStructure.coercePeople]; exact ih
      | str s => simp only [DigestStructure.coercePeople]; exact ih
      | arr ys => simp only [DigestStructure.coercePeople]; exact ih

theorem coerceCalendar_idem (xs : List Json) :
    DigestStructure.coerceCalendar (DigestStructure.coerceCalendar xs) =
      DigestStructure.coerceCalendar xs := by
  induction xs with
  | nil => rfl
  | cons u rest ih =>
      cases u with
      | obj kvs =>
          cases hgt : getA kvs "time" with
          | none =>
              simp only [DigestStructure.coerceCalendar, hgt]
              rw [ih]
              simp [getA, pyStr_str, pyTruthy_null]
          | some tv =>
              by_cases htr : pyTruthy tv = true
              · have hne : (pyStr tv).isEmpty = false :=
                  isEmpty_false_of_ne (pyStr_ne_empty_of_truthy htr)
                simp only [DigestStructure.coerceCalendar, hgt, htr]
                rw [ih]
                simp [getA, pyStr_str, pyTruthy_str, pyTruthy_null, hne]
              · simp only [DigestStructure.coerceCalendar, hgt]
                rw [ih]
                simp [getA, pyStr_str, pyTruthy_null, htr]
      | null => simp only [DigestStructure.coerceCalendar]; exact ih
      | bool b => simp only [DigestStructure.coerceCalendar]; exact ih
      | num n => simp only [DigestStructure.coerceCalendar]; exact ih
      | str s => simp only [DigestStructure.coerceCalendar]; exact ih
      | arr ys => simp only [DigestStructure.coerceCalendar]; exact ih

/-- Every coerced calendar element is a dict whose `time` is `None` or a
non-empty string. -/
theorem mem_coerceCalendar_time {t : Json} {cs : List Json}
    (ht : t ∈ DigestStructure.coerceCalendar cs) :
    ∃ kvs, t = Json.obj kvs ∧
      (getA kvs "time" = some Json.null ∨
        ∃ s, getA kvs "time" = some (Json.str s) ∧ s ≠ "") := by
  induction cs with
  | nil => simp [DigestStructure.coerceCalendar] at ht
  | cons u rest ih =>
      cases u with
      | obj kvs =>
          simp only [DigestStructure.coerceCalendar] at ht
          rcases List.mem_cons.mp ht with rfl | hrest
          · cases hgt : getA kvs "time" with
            | none =>
                refine ⟨_, rfl, Or.inl ?_⟩
                simp [getA, hgt]
            | some tv =>
                by_cases htr : pyTruthy tv = true
                · refine ⟨_, rfl, Or.inr ⟨pyStr tv, ?_, pyStr_ne_empty_of_truthy htr⟩⟩
                  simp [getA, hgt, htr]
                · refine ⟨_, rfl, Or.inl ?_⟩
                  simp [getA, hgt, htr]
          · exact ih hrest
      | null => simp only [DigestStructure.coerceCalendar] at ht; exact ih ht
      | bool b => simp only [DigestStructure.coerceCalendar] at ht; exact ih ht
      | num n => simp only [DigestStructure.coerceCalendar] at ht; exact ih ht
      | str s => simp only [DigestStructure.coerceCalendar] at ht; exact ih ht
      | arr ys => simp only [DigestStructure.coerceCalendar] at ht; exact ih ht

/-- Claim C9: `DigestStructure.validate` is idempotent — re-validating its
own output returns it unchanged — and its output carries exactly the six
digest keys, with calendar `time` either `None` or a non-empty string. -/
theorem c9_validate_idempotent (j : Json) (v : Obj)
    (h : DigestStructure.validate j = Except.ok v) :
    DigestStructure.validate (Json.obj v) = Except.ok v ∧
    keysA v = requiredFields ∧
    (∀ t ∈ elemsOf (getA v "calendar"), ∃ kvs, t = Json.obj kvs ∧
      (getA kvs "time" = some Json.null ∨
        ∃ s, getA kvs "time" = some (Json.str s) ∧ s ≠ "")) := by
  obtain ⟨us, ds2, zs, ts, ps, cs, ums, hzs, rfl⟩ := digest_validate_ok_decomp h
  refine ⟨?_, by simp [keysA, requiredFields], ?_⟩
  · simp only [DigestStructure.validate]
    have htf : DigestStructure.topicsField
        [("urgent", Json.arr (us.map (fun x => Json.str (pyStr x)))),
         ("decisions", Json.arr (ds2.map (fun x => Json.str (pyStr x)))),
         ("topics", Json.arr ts),
         ("people_updates", Json.arr (DigestStructure.coercePeople ps)),
         ("calendar", Json.arr (DigestStructure.coerceCalendar cs)),
         ("unanswered_mentions", Json.arr (ums.map (fun x => Json.str (pyStr x))))] =
        Except.ok (Json.arr ts) := by
      simp only [DigestStructure.topicsField, getA]
      simp [coerceTopics_idem hzs]
    rw [htf]
    simp [DigestStructure.strListField, DigestStructure.peopleField,
      DigestStructure.calendarField, getA, map_strfy_idem, coercePeople_idem,
      coerceCalendar_idem, pyStr_str]
  · intro t ht
    have hget : getA
        [("urgent", Json.arr (us.map (fun x => Json.str (pyStr x)))),
         ("decisions", Json.arr (ds2.map (fun x => Json.str (pyStr x)))),
         ("topics", Json.arr ts),
         ("people_updates", Json.arr (DigestStructure.coercePeople ps)),
         ("calendar", Json.arr (DigestStructure.coerceCalendar cs)),
         ("unanswered_mentions", Json.arr (ums.map (fun x => Json.str (pyStr x))))]
        "calendar" = some (Json.arr (DigestStructure.coerceCalendar cs)) := rfl
    rw [hget] at ht
    exact mem_coerceCalendar_time ht

/-- Witness for C9 at a dict carrying one urgent string and an extra key. -/
theorem c9_validate_idempotent_witness :
    DigestStructure.validate
        (Json.obj [("urgent", Json.arr [Json.str "hi"]), ("extra", Json.num 1)]) =
      Except.ok
        [("urgent", Json.arr [Json.str "hi"]), ("decisions", Json.arr []),
         ("topics", Json.arr []), ("people_updates", Json.arr []),
         ("calendar", Json.arr []), ("unanswered_mentions", Json.arr [])] ∧
    DigestStructure.validate (Json.obj
        [("urgent", Json.arr [Json.str "hi"]), ("decisions", Json.arr []),
         ("topics", Json.arr []), ("people_updates", Json.arr []),
         ("calendar", Json.arr []), ("unanswered_mentions", Json.arr [])]) =
      Except.ok
        [("urgent", Json.arr [Json.str "hi"]), ("decisions", Json.arr []),
         ("topics", Json.arr []), ("people_updates", Json.arr []),
         ("calendar", Json.arr []), ("unanswered_mentions", Json.arr [])] ∧
    keysA
        [("urgent", Json.arr [Json.str "hi"]), ("decisions", Json.arr []),
         ("topics", Json.arr []), ("people_updates", Json.arr []),
         ("calendar", Json.arr []), ("unanswered_mentions", Json.arr [])] =
      requiredFields :=
  ⟨rfl,
   (c9_validate_idempotent
     (Json.obj [("urgent", Json.arr [Json.str "hi"]), ("extra", Json.num 1)]) _ rfl).1,
   (c9_validate_idempotent
     (Json.obj [("urgent", Json.arr [Json.str "hi"]), ("extra", Json.num 1)]) _ rfl).2.1⟩

/-! Lemmas about the archived message filter. -/

theorem getA_bumpCount_self (c : List (String × Nat)) (k : String) (v : Nat) :
    getA (Archive.bumpCount c k v) k = some v := by
  unfold Archive.bumpCount
  split
  · exact getA_setA_self c k v
  · rename_i hnk
    rw [getA_append]
    have hnone : getA c k = none := by
      rw [hasKeyA] at hnk
      exact Option.not_isSome_iff_eq_none.mp (by simpa using hnk)
    rw [hnone]
    simp [getA]

theorem getA_bumpCount_ne (c : List (String × Nat)) (k k' : String) (v : Nat)
    (h : k ≠ k') : getA (Archive.bumpCount c k v) k' = getA c k' := by
  unfold Archive.bumpCount
  split
  · exact getA_setA_ne c k k' v h
  · rw [getA_append]
    cases hg : getA c k' with
    | some w => rfl
    | none => simp [getA, h]

theorem applyChatLimitsAux_all (maxN : Nat) :
    ∀ (msgs : List Archive.FilteredMessage) (counts : List (String × Nat)),
      (∀ name, (getA counts name).getD 0 + msgs.length ≤ maxN) →
      Archive.applyChatLimitsAux maxN counts msgs = msgs := by
  intro msgs
  induction msgs with
  | nil => intro counts _; rfl
  | cons m rest ih =>
      intro counts h
      have hm := h m.message.chat_name
      have hcnt : (getA counts m.message.chat_name).getD 0 < maxN := by
        simp only [List.length_cons] at hm
        omega
      simp only [Archive.applyChatLimitsAux]
      rw [if_pos hcnt]
      congr 1
      apply ih
      intro name
      by_cases hn : name = m.message.chat_name
      · subst hn
        rw [getA_bumpCount_self]
        simp only [List.length_cons] at hm
        simp only [Option.getD_some]
        omega
      · rw [getA_bumpCount_ne _ _ _ _ (fun hh => hn hh.symm)]
        have := h name
        simp only [List.length_cons] at this
        omega

/-- When no more messages arrive than the per-chat cap allows in total, the
cap keeps everything. -/
theorem apply_chat_limits_all {maxN : Nat} {msgs : List Archive.FilteredMessage}
    (h : msgs.length ≤ maxN) : Archive.apply_chat_limits maxN msgs = msgs := by
  apply applyChatLimitsAux_all
  intro name
  simpa [getA] using h

/-- Claim C3 counterexample: the three described messages, each 25 hours
old, are ranked with the mention+money+date message first — but its priority
score is 9 (recency band 4 plus mention bonus 5; the scoring has no money or
date contribution), which is below the claimed 15. -/
theorem c3_counterexample :
    Archive.filter_messages Archive.defaultDigestConfig c3now (some "@alice")
        [c3keywordMsg, c3moneyMsg, c3mentionMsg] =
      [⟨c3mentionMsg, 9⟩, ⟨c3keywordMsg, 4⟩, ⟨c3moneyMsg, 4⟩] ∧ (9 : Nat) < 15 := by
  constructor
  · rfl
  · decide

/-- Claim C3 (amended): for a triple as described — a keyword-only message,
a money+date message without the username, and a message carrying the
username mention (plus money and date content, which the scorer ignores) —
when all three are under one hour old, are not replies, carry no media and
have texts of at most 50 characters, filtering for that username ranks the
mention message first with score 15 (≥ 15: recency 10 + mention 5), while
the keyword-only and money+date messages tie at 10 (the scorer assigns no
money or date contribution) and retain their input order. -/
theorem c3_priority_scoring_amended
    (now : Int) (u : String) (mK mD mM : Archive.TelegramMessage)
    (hKt : now - mK.timestamp < 3600) (hDt : now - mD.timestamp < 3600)
    (hMt : now - mM.timestamp < 3600)
    (hKr : mK.is_reply = false) (hDr : mD.is_reply = false) (hMr : mM.is_reply = false)
    (hKm : mK.has_media = false) (hDm : mD.has_media = false) (hMm : mM.has_media = false)
    (hKl : ¬mK.text.length > 50) (hDl : ¬mD.text.length > 50) (hMl : ¬mM.text.length > 50)
    (hKkw : Archive.has_keywords mK.text = true)
    (hDmoney : Archive.has_money_amounts mD.text = true)
    (hDdate : Archive.has_dates mD.text = true)
    (hMmoney : Archive.has_money_amounts mM.text = true)
    (hMdate : Archive.has_dates mM.text = true)
    (hKrel : Archive.is_message_relevant Archive.defaultDigestConfig mK = true)
    (hDrel : Archive.is_message_relevant Archive.defaultDigestConfig mD = true)
    (hMrel : Archive.is_message_relevant Archive.defaultDigestConfig mM = true)
    (hKu : Archive.mentionsUsername (some u) mK.text = false)
    (hDu : Archive.mentionsUsername (some u) mD.text = false)
    (hMu : Archive.mentionsUsername (some u) mM.text = true) :
    Archive.filter_messages Archive.defaultDigestConfig now (some u) [mK, mD, mM] =
      [⟨mM, 15⟩, ⟨mK, 10⟩, ⟨mD, 10⟩] ∧ (15 : Nat) ≥ 15 := by
  have sK : Archive.calculate_priority_score now (some u) mK = 10 := by
    simp [Archive.calculate_priority_score, Archive.recencyScore, hKt, hKu, hKr, hKm, hKl]
  have sD : Archive.calculate_priority_score now (some u) mD = 10 := by
    simp [Archive.calculate_priority_score, Archive.recencyScore, hDt, hDu, hDr, hDm, hDl]
  have sM : Archive.calculate_priority_score now (some u) mM = 15 := by
    simp [Archive.calculate_priority_score, Archive.recencyScore, hMt, hMu, hMr, hMm, hMl]
  refine ⟨?_, le_refl 15⟩
  have hkept : [mK, mD, mM].filterMap (fun m =>
      if Archive.is_message_relevant Archive.defaultDigestConfig m then
        some (⟨m, Archive.calculate_priority_score now (some u) m⟩ :
          Archive.FilteredMessage)
      else none) = [⟨mK, 10⟩, ⟨mD, 10⟩, ⟨mM, 15⟩] := by
    simp [List.filterMap_cons, hKrel, hDrel, hMrel, sK, sD, sM]
  have hsort : Archive.sortByScoreDesc [⟨mK, 10⟩, ⟨mD, 10⟩, ⟨mM, 15⟩] =
      [⟨mM, 15⟩, ⟨mK, 10⟩, ⟨mD, 10⟩] := by
    simp [Archive.sortByScoreDesc, Archive.insertByScore]
  rw [Archive.filter_messages]
  simp only [List.isEmpty_cons, Bool.false_eq_true, if_false]
  rw [hkept, hsort]
  exact apply_chat_limits_all (by simp [Archive.defaultDigestConfig])

/-- Witness for C3's amended statement: concrete fresh messages (500
seconds old) with the described contents. -/
theorem c3_priority_scoring_amended_witness :
    Archive.filter_messages Archive.defaultDigestConfig 1000000 (some "@alice")
        [⟨"work", 999500, "see you at the meeting", false, false⟩,
         ⟨"work", 999500, "Pay $100 by 2024-01-15 invoice", false, false⟩,
         ⟨"work", 999500, "@alice pay $100 by 2024-01-15", false, false⟩] =
      [⟨⟨"work", 999500, "@alice pay $100 by 2024-01-15", false, false⟩, 15⟩,
       ⟨⟨"work", 999500, "see you at the meeting", false, false⟩, 10⟩,
       ⟨⟨"work", 999500, "Pay $100 by 2024-01-15 invoice", false, false⟩, 10⟩] ∧
    (15 : Nat) ≥ 15 :=
  c3_priority_scoring_amended 1000000 "@alice"
    ⟨"work", 999500, "see you at the meeting", false, false⟩
    ⟨"work", 999500, "Pay $100 by 2024-01-15 invoice", false, false⟩
    ⟨"work", 999500, "@alice pay $100 by 2024-01-15", false, false⟩
    (by decide) (by decide) (by decide)
    rfl rfl rfl rfl rfl rfl
    (by decide) (by decide) (by decide)
    (by decide) (by decide) (by decide) (by decide) (by decide)
    (by decide) (by decide) (by decide)
    (by decide) (by decide) (by decide)

end TelegramDigest
